import Mathlib

/-!
Verification of the Lumen compiler core (src/core/lmnast.py, src/core/compiler.py).

The Python sources are shallowly embedded: each Lean definition mirrors one
Python function or method, with the mutable compiler/symbol-table state passed
explicitly and Python exceptions modelled by explicit error values.  Python
`dict`s are modelled as insertion-ordered association lists, Python strings by
Lean `String` manipulated through character-list helpers that mirror the exact
Python string operations used by the sources.
-/

namespace Lumen

/-- Errors raised by the compiler.  `semantic` mirrors `LumenSemanticError`,
`synErr` mirrors `LumenSyntaxError` (of compiler.py), and `attr` mirrors a
Python `AttributeError` raised when an undefined attribute such as
`self.is_expression` is accessed. -/
inductive Err where
  | semantic (msg : String)
  | synErr (msg : String)
  | attr (name : String)
  deriving Repr, DecidableEq

/-- Python whitespace characters recognised by `str.strip()`. -/
def pySpaceChar (c : Char) : Bool :=
  c = ' ' || c = '\t' || c = '\n' || c = '\x0d' || c = '\x0b' || c = '\x0c'

/-- Mirror of Python `str.strip()` on a character list. -/
def stripChars (cs : List Char) : List Char :=
  ((cs.dropWhile pySpaceChar).reverse.dropWhile pySpaceChar).reverse

/-- Mirror of Python `str.strip()`. -/
def pyStrip (s : String) : String :=
  String.mk (stripChars s.data)

/-- Mirror of Python `str.split('\n')` (never returns an empty list). -/
def splitNlChars (cs : List Char) : List String :=
  match cs with
  | [] => [""]
  | '\n' :: rest => "" :: splitNlChars rest
  | c :: rest =>
    match splitNlChars rest with
    | [] => [String.mk [c]]
    | piece :: more => (String.mk (c :: piece.data)) :: more

/-- Mirror of Python `str.split('\n')`. -/
def pySplitNl (s : String) : List String :=
  splitNlChars s.data

/-- Mirror of Python `sep.join(parts)`. -/
def pyJoin (sep : String) : List String → String
  | [] => ""
  | [x] => x
  | x :: rest => x ++ sep ++ pyJoin sep rest

/-- Mirror of Python `str.lower()` for the ASCII range used by the sources. -/
def pyLower (s : String) : String :=
  String.mk (s.data.map Char.toLower)

/-- Mirror of Python `str.capitalize()` (first character upper, rest lower). -/
def pyCapitalize (s : String) : String :=
  match s.data with
  | [] => ""
  | c :: rest => String.mk (c.toUpper :: rest.map Char.toLower)

/-- Mirror of Python `ch in s` for a single character. -/
def pyContainsChar (s : String) (c : Char) : Bool :=
  s.data.contains c

/-- Mirror of Python `s.startswith(p)` for a single-character prefix. -/
def pyStartsWithChar (s : String) (c : Char) : Bool :=
  match s.data with
  | [] => false
  | c' :: _ => c' = c

/-- Mirror of Python `s.endswith(p)` for a single-character suffix. -/
def pyEndsWithChar (s : String) (c : Char) : Bool :=
  match s.data.getLast? with
  | none => false
  | some c' => c' = c

/-- Mirror of Python `s.startswith(('"', "'"))`. -/
def startsWithQuote (s : String) : Bool :=
  pyStartsWithChar s '"' || pyStartsWithChar s '\''

/-- Mirror of the idiom `(v.startswith('"') and v.endswith('"')) or
(v.startswith("'") and v.endswith("'"))` used throughout the sources. -/
def isQuoted (s : String) : Bool :=
  (pyStartsWithChar s '"' && pyEndsWithChar s '"') ||
  (pyStartsWithChar s '\'' && pyEndsWithChar s '\'')

/-- Mirror of Python `str.isdigit()` for ASCII text. -/
def pyIsDigit (s : String) : Bool :=
  !s.data.isEmpty && s.data.all Char.isDigit

/-- Mirror of Python `s.replace(c, '')` for a single character. -/
def pyRemoveChar (s : String) (c : Char) : String :=
  String.mk (s.data.filter (fun c' => c' ≠ c))

/-- Mirror of the full-match regex `^[a-zA-Z_][a-zA-Z0-9_]*$` used by both
`ExpressionParser.is_operand` and `validate_identifier`. -/
def pyIsIdentifier (s : String) : Bool :=
  match s.data with
  | [] => false
  | c :: rest =>
    (c.isAlpha || c = '_') && rest.all (fun c' => c'.isAlphanum || c' = '_')

/-- A run of decimal digits possibly separated by single underscores,
continuing a digit group (mirrors CPython numeric-literal acceptance). -/
def digitGroupRest : List Char → Bool
  | [] => true
  | '_' :: c :: rest => c.isDigit && digitGroupRest rest
  | [c] => c.isDigit
  | c :: rest => c.isDigit && digitGroupRest rest

/-- A non-empty digit run with optional single underscores between digits. -/
def digitGroup : List Char → Bool
  | [] => false
  | c :: rest => c.isDigit && digitGroupRest rest

/-- Whether Python `int(s)` accepts the string (base 10). -/
def pyIntOk (s : String) : Bool :=
  match stripChars s.data with
  | '+' :: rest => digitGroup rest
  | '-' :: rest => digitGroup rest
  | cs => digitGroup cs

/-- Acceptance of the exponent part of a Python float literal. -/
def floatExpOk : List Char → Bool
  | '+' :: rest => digitGroup rest
  | '-' :: rest => digitGroup rest
  | cs => digitGroup cs

/-- Split a character list at the first occurrence of a character. -/
def splitAtChar (c : Char) : List Char → Option (List Char × List Char)
  | [] => none
  | c' :: rest =>
    if c' = c then some ([], rest)
    else match splitAtChar c rest with
      | none => none
      | some (a, b) => some (c' :: a, b)

/-- Acceptance of the mantissa of a Python float literal. -/
def floatMantissaOk (cs : List Char) : Bool :=
  match splitAtChar '.' cs with
  | none => digitGroup cs
  | some (intPart, fracPart) =>
    (intPart.isEmpty || digitGroup intPart) &&
    (fracPart.isEmpty || digitGroup fracPart) &&
    !(intPart.isEmpty && fracPart.isEmpty)

/-- Acceptance of an unsigned Python float body (mantissa plus optional
exponent, or one of the special words inf/infinity/nan). -/
def floatBodyOk (cs : List Char) : Bool :=
  let low := String.mk (cs.map Char.toLower)
  if low = "inf" || low = "infinity" || low = "nan" then true
  else match splitAtChar 'e' (cs.map Char.toLower) with
    | none => floatMantissaOk cs
    | some (m, e) => floatMantissaOk m && floatExpOk e

/-- Whether Python `float(s)` accepts the string. -/
def pyFloatOk (s : String) : Bool :=
  match stripChars s.data with
  | '+' :: rest => floatBodyOk rest
  | '-' :: rest => floatBodyOk rest
  | cs => floatBodyOk cs

/-- Insertion-ordered association-list update, mirroring Python
`d[k] = v` on a `dict` (replace in place, else append). -/
def dictInsert {α : Type} (m : List (String × α)) (k : String) (v : α) :
    List (String × α) :=
  match m with
  | [] => [(k, v)]
  | (k', v') :: rest =>
    if k' = k then (k, v) :: rest else (k', v') :: dictInsert rest k v

/-- Association-list lookup, mirroring Python `d[k]` / `k in d`. -/
def dictLookup {α : Type} (m : List (String × α)) (k : String) : Option α :=
  match m with
  | [] => none
  | (k', v) :: rest => if k' = k then some v else dictLookup rest k

/-- Membership of a key, mirroring Python `k in d`. -/
def dictMem {α : Type} (m : List (String × α)) (k : String) : Bool :=
  (dictLookup m k).isSome

/-- Repetition of the four-space indent unit: mirror of
`PythonCodeGenerator.get_indent` at a given `indent_level`. -/
def get_indent : Nat → String
  | 0 => ""
  | n + 1 => "    " ++ get_indent n

/-- The operator table of `ExpressionParser.__init__`: precedence and
associativity per operator token. -/
def operator_info : String → Option (Nat × String)
  | "!" => some (7, "right")
  | "not" => some (7, "right")
  | "||" => some (1, "left")
  | "or" => some (1, "left")
  | "&&" => some (2, "left")
  | "and" => some (2, "left")
  | "==" => some (3, "left")
  | "!=" => some (3, "left")
  | "<" => some (4, "left")
  | ">" => some (4, "left")
  | "<=" => some (4, "left")
  | ">=" => some (4, "left")
  | "+" => some (5, "left")
  | "-" => some (5, "left")
  | "*" => some (6, "left")
  | "/" => some (6, "left")
  | "%" => some (6, "left")
  | _ => none

/-- Mirror of `ExpressionParser.is_operator`. -/
def is_operator (t : String) : Bool :=
  (operator_info t).isSome

/-- Precedence of an operator token (0 for non-operators; only consulted on
operators). -/
def precOf (t : String) : Nat :=
  match operator_info t with
  | some (p, _) => p
  | none => 0

/-- Mirror of `ExpressionParser.is_operand`: a float-parsable number, a quoted
string literal, or an identifier. -/
def is_operand (t : String) : Bool :=
  pyFloatOk t || isQuoted t || pyIsIdentifier t

/-- Pop operators to the output until the matching `(` is found; mirrors the
`)` case of `ExpressionParser.parse_expression`.  `none` means the opening
parenthesis is missing. -/
def popToParen (stack output : List String) :
    Option (List String × List String) :=
  match stack with
  | [] => none
  | "(" :: rest => some (output, rest)
  | op :: rest => popToParen rest (output ++ [op])

/-- Pop stacked operators of greater-or-equal precedence; mirrors the binary
operator case of `ExpressionParser.parse_expression`. -/
def popGE (p : Nat) (stack output : List String) :
    List String × List String :=
  match stack with
  | [] => (output, [])
  | top :: rest =>
    if top ≠ "(" && is_operator top && p ≤ precOf top then
      popGE p rest (output ++ [top])
    else (output, top :: rest)

/-- The token loop of `ExpressionParser.parse_expression` (shunting yard):
returns the output queue and the remaining operator stack. -/
def rpnLoop (tokens output stack : List String) :
    Except String (List String × List String) :=
  match tokens with
  | [] => Except.ok (output, stack)
  | t :: rest =>
    if is_operand t then rpnLoop rest (output ++ [t]) stack
    else if t = "(" then rpnLoop rest output (t :: stack)
    else if t = ")" then
      match popToParen stack output with
      | some (output', stack') => rpnLoop rest output' stack'
      | none => Except.error "Mismatched parentheses in expression"
    else if is_operator t then
      if t = "!" || t = "not" then rpnLoop rest output (t :: stack)
      else
        let (output', stack') := popGE (precOf t) stack output
        rpnLoop rest output' (t :: stack')
    else rpnLoop rest (output ++ [t]) stack

/-- The final drain of `ExpressionParser.parse_expression`: remaining operators
move to the output; a leftover parenthesis is a hard error. -/
def drainStack (stack output : List String) : Except String (List String) :=
  match stack with
  | [] => Except.ok output
  | top :: rest =>
    if top = "(" || top = ")" then
      Except.error "Mismatched parentheses in expression"
    else drainStack rest (output ++ [top])

/-- The reduction loop of `ExpressionParser.postfix_to_python`. -/
def rpnReduce (pf stack : List String) : Except String (List String) :=
  match pf with
  | [] => Except.ok stack
  | t :: rest =>
    if is_operator t then
      if (t = "!" || t = "not") && stack.length ≥ 1 then
        match stack with
        | operand :: stack' =>
          rpnReduce rest (("(not " ++ operand ++ ")") :: stack')
        | [] => Except.error ("Invalid expression: not enough operands for operator '" ++ t ++ "'")
      else if stack.length ≥ 2 then
        match stack with
        | right :: left :: stack' =>
          let e :=
            if t = "&&" || t = "and" then "(" ++ left ++ " and " ++ right ++ ")"
            else if t = "||" || t = "or" then "(" ++ left ++ " or " ++ right ++ ")"
            else "(" ++ left ++ " " ++ t ++ " " ++ right ++ ")"
          rpnReduce rest (e :: stack')
        | _ => Except.error ("Invalid expression: not enough operands for operator '" ++ t ++ "'")
      else Except.error ("Invalid expression: not enough operands for operator '" ++ t ++ "'")
    else rpnReduce rest (t :: stack)

/-- Mirror of `ExpressionParser.postfix_to_python`. -/
def postfix_to_py (pf : List String) : Except String (Option String) :=
  match pf with
  | [] => Except.ok none
  | [t] => Except.ok (some t)
  | _ =>
    match rpnReduce pf [] with
    | Except.error e => Except.error e
    | Except.ok [e] => Except.ok (some e)
    | Except.ok _ => Except.error "Invalid expression: malformed"

/-- The infix-to-postfix phase of `ExpressionParser.parse_expression`: the
token loop followed by the final drain of the operator stack. -/
def infixToRpn (tokens : List String) : Except String (List String) :=
  match rpnLoop tokens [] [] with
  | Except.error e => Except.error e
  | Except.ok (output, stack) => drainStack stack output

/-- Mirror of `ExpressionParser.parse_expression`: infix tokens to a single
Python expression string via the shunting-yard algorithm. -/
def parse_expression (tokens : List String) : Except String (Option String) :=
  match tokens with
  | [] => Except.ok none
  | [t] => Except.ok (some t)
  | _ =>
    match infixToRpn tokens with
    | Except.error e => Except.error e
    | Except.ok output => postfix_to_py output

/-- Integer denotation of a numeric token (claim-side semantics). -/
def tokToInt (t : String) : Option Int :=
  match t.data with
  | [] => none
  | cs =>
    if cs.all Char.isDigit then
      some (cs.foldl (fun acc c => acc * 10 + (Int.ofNat (c.toNat - '0'.toNat))) 0)
    else none

/-- Arithmetic evaluation of a postfix token run (claim-side semantics, used
to state that the resolved expressions of the precedence claim evaluate to 10
and 14). -/
def rpnEvalInt : List String → List Int → Option Int
  | [], [v] => some v
  | [], _ => none
  | t :: rest, stack =>
    if t = "+" then
      match stack with
      | r :: l :: s => rpnEvalInt rest ((l + r) :: s)
      | _ => none
    else if t = "-" then
      match stack with
      | r :: l :: s => rpnEvalInt rest ((l - r) :: s)
      | _ => none
    else if t = "*" then
      match stack with
      | r :: l :: s => rpnEvalInt rest ((l * r) :: s)
      | _ => none
    else
      match tokToInt t with
      | some v => rpnEvalInt rest (v :: stack)
      | none => none

/-- The end-of-expression scan of `parse_value_expression`: advance until a
`;` or brace at zero parenthesis/bracket depth. -/
def scanEndAux (tokens : List String) (pd bd : Int) (i : Nat) : Nat :=
  match tokens with
  | [] => i
  | t :: rest =>
    if t = "(" then scanEndAux rest (pd + 1) bd (i + 1)
    else if t = ")" then scanEndAux rest (pd - 1) bd (i + 1)
    else if t = "[" then scanEndAux rest pd (bd + 1) (i + 1)
    else if t = "]" then scanEndAux rest pd (bd - 1) (i + 1)
    else if t = ";" && pd = 0 && bd = 0 then i
    else if (t = "\x7b" || t = "\x7d") && pd = 0 && bd = 0 then i
    else scanEndAux rest pd bd (i + 1)

/-- End index of the value expression starting at `start`. -/
def scanEnd (tokens : List String) (start : Nat) : Nat :=
  scanEndAux (tokens.drop start) 0 0 start

/-- Mirror of `parse_value_expression` of lmnast.py: extract the value tokens,
try the expression resolver, and on any resolver failure fall back to the raw
tokens joined by single spaces. -/
def parse_value_expression (tokens : List String) (start : Nat) :
    Except String (Option String × Nat) :=
  if tokens.length ≤ start then
    Except.error ("Expected value expression at position " ++ Nat.repr start)
  else
    let e := scanEnd tokens start
    if e = start then
      Except.error ("Empty value expression at position " ++ Nat.repr start)
    else
      let valueTokens := (tokens.drop start).take (e - start)
      match parse_expression valueTokens with
      | Except.ok expr => Except.ok (expr, e)
      | Except.error _ => Except.ok (some (pyJoin " " valueTokens), e)

/-- A Python value held in a statement or symbol: a raw string (literal or
already-resolved expression text), a list of element strings (array literal),
an ordered key/value map (dict literal), or Python `None`. -/
inductive Value where
  | vstr (s : String)
  | vlist (elems : List String)
  | vdict (pairs : List (String × String))
  | vnone
  deriving Repr, DecidableEq

mutual
/-- The tagged statement records produced by `parse_tokens` of lmnast.py,
one constructor per tuple shape. -/
inductive Stmt where
  | declare (varType name : String) (value : Value) (isStatic : Bool)
  | globalDecl (varType name : String) (value : Value)
  | assign (target : String) (value : Value)
  | print (args : List String)
  | ifS (cond : String) (body : Stmts)
  | whileS (cond : String) (body : Stmts)
  | funDef (name : String) (params : List String) (body : Stmts)
  | call (name : String) (args : List String)
  | ret (value : Option String)
  | label (name : String)
  | goto (name : String)
  | inc (name : String)
  | dec (name : String)
  | includeLib (name : String)
  | importLib (name : String)
  | libCall (lib fn : String) (args : List String)
  | libAccess (lib member : String)
  | exprStmt (e : String)
/-- A statement sequence (the ordered `body` lists of the AST). -/
inductive Stmts where
  | nil
  | cons (s : Stmt) (rest : Stmts)
end

/-- Build a statement sequence from a Lean list (for concrete programs). -/
def Stmts.ofList : List Stmt → Stmts
  | [] => Stmts.nil
  | s :: rest => Stmts.cons s (Stmts.ofList rest)

/-- Flatten a statement sequence to a Lean list. -/
def Stmts.toList : Stmts → List Stmt
  | Stmts.nil => []
  | Stmts.cons s rest => s :: Stmts.toList rest

/-- Mirror of the `Symbol` class of lmnast.py. -/
structure Symbol where
  name : String
  var_type : String
  value : Value
  is_static : Bool
  scope : String
  deriving Repr, DecidableEq

/-- Mirror of the `SymbolTable` class state.  The scope stack is stored with
the innermost (Python `scope_stack[-1]`) scope first. -/
structure SymbolTable where
  symbols : List (String × Symbol)
  functions : List (String × (List String × Stmts))
  scope_stack : List String
  static_vars : List (String × Symbol)
  global_vars : List (String × (String × Value))

/-- A fresh symbol table, as built by `SymbolTable.__init__`. -/
def SymbolTable.init : SymbolTable :=
  { symbols := [], functions := [], scope_stack := ["global"],
    static_vars := [], global_vars := [] }

/-- Mirror of `SymbolTable.current_scope`. -/
def current_scope (st : SymbolTable) : String :=
  st.scope_stack.headD "global"

/-- Mirror of `SymbolTable.enter_scope`. -/
def enter_scope (st : SymbolTable) (scopeName : String) : SymbolTable :=
  { st with scope_stack := scopeName :: st.scope_stack }

/-- Mirror of `SymbolTable.exit_scope`: pop the innermost frame and discard
every symbol whose owning scope is the popped frame. -/
def exit_scope (st : SymbolTable) : SymbolTable :=
  if 1 < st.scope_stack.length then
    match st.scope_stack with
    | [] => st
    | scope :: rest =>
      { st with scope_stack := rest,
                symbols := st.symbols.filter (fun p => p.2.scope ≠ scope) }
  else st

/-- Mirror of `SymbolTable.get_function_parameters`. -/
def get_function_parameters (st : SymbolTable) (functionName : String) :
    List String :=
  match dictLookup st.functions functionName with
  | some (params, _) => params
  | none => []

/-- Mirror of `SymbolTable.infer_type`: classify a value by shape. -/
def infer_type (value : Value) : String :=
  match value with
  | Value.vstr v =>
    if isQuoted v then "str"
    else if pyStartsWithChar v '[' && pyEndsWithChar v ']' then "ary"
    else if pyStartsWithChar v '\x7b' && pyEndsWithChar v '\x7d' then "dic"
    else if pyLower v = "true" || pyLower v = "false" then "bool"
    else if pyIntOk v then "int"
    else if pyFloatOk v then "float"
    else "var"
  | Value.vlist _ => "ary"
  | Value.vdict _ => "dic"
  | Value.vnone => "var"

/-- Mirror of `SymbolTable.check_type_compatibility`. -/
def check_type_compatibility (declaredType : String) (value : Value) : Bool :=
  if declaredType = "var" then true
  else if declaredType = "ary" then
    (match value with
     | Value.vlist _ => true
     | Value.vstr v => pyStartsWithChar v '['
     | _ => false)
  else if declaredType = "dic" then
    (match value with
     | Value.vdict _ => true
     | Value.vstr v => pyStartsWithChar v '\x7b'
     | _ => false)
  else declaredType = infer_type value

/-- The key under which `SymbolTable.declare_variable` stores a non-static
symbol: the bare name when the name is a registered global or the current
scope is global, otherwise the scope-qualified name. -/
def declFullName (st : SymbolTable) (name : String) : String :=
  if dictMem st.global_vars name then name
  else if current_scope st ≠ "global" then current_scope st ++ "." ++ name
  else name

/-- The scope recorded by `SymbolTable.declare_variable` for a non-static
symbol. -/
def declScope (st : SymbolTable) (name : String) : String :=
  if dictMem st.global_vars name then "global" else current_scope st

/-- Mirror of `SymbolTable.declare_variable`.  The returned pair carries the
table as the method leaves it plus the raised error, if any. -/
def declare_variable (st : SymbolTable) (name varType : String)
    (value : Value) (isStatic : Bool) : SymbolTable × Option Err :=
  if isStatic then
    if dictMem st.static_vars name then
      (st, some (Err.semantic ("Static variable '" ++ name ++ "' already declared")))
    else
      ({ st with static_vars :=
           dictInsert st.static_vars name (Symbol.mk name varType value true "static") }, none)
  else
    if dictMem st.symbols (declFullName st name) then
      (st, some (Err.semantic ("Variable '" ++ name ++ "' already declared in current scope")))
    else
      ({ st with symbols :=
           (dictInsert st.symbols (declFullName st name)
             (Symbol.mk name varType value false (declScope st name))) }, none)

/-- The key under which `SymbolTable.assign_variable` first looks a name up:
always scope-qualified in a non-global scope. -/
def assignFullName (st : SymbolTable) (name : String) : String :=
  if current_scope st ≠ "global" then current_scope st ++ "." ++ name
  else name

/-- The `is_parameter` test inside `SymbolTable.assign_variable`. -/
def isParameterOf (st : SymbolTable) (name : String) : Bool :=
  (current_scope st ≠ "global" : Bool) &&
  (get_function_parameters st (current_scope st)).contains name

/-- The type check performed at the end of `SymbolTable.assign_variable`. -/
def assignTypeCheck (st : SymbolTable) (name : String) (sym : Symbol)
    (value : Value) : SymbolTable × Option Err :=
  if check_type_compatibility sym.var_type value then (st, none)
  else
    (st, some (Err.semantic ("Type mismatch: Cannot assign " ++ infer_type value ++
       " to " ++ sym.var_type ++ " variable '" ++ name ++ "'")))

/-- Mirror of `SymbolTable.assign_variable`: validate an assignment.  Note
that on success no stored value is updated; the method only validates.  The
only mutation is the declaration of an as-yet-undeclared function
parameter. -/
def assign_variable (st : SymbolTable) (name : String) (value : Value) :
    SymbolTable × Option Err :=
  let fullName := assignFullName st name
  if dictMem st.static_vars name then
    (st, some (Err.semantic ("Cannot reassign static variable '" ++ name ++ "'")))
  else
    let isParam := isParameterOf st name
    let pre :=
      if isParam && !dictMem st.symbols fullName then
        declare_variable st name "var" value false
      else (st, none)
    match pre with
    | (st', some e) => (st', some e)
    | (st', none) =>
      match dictLookup st'.symbols fullName with
      | some sym => assignTypeCheck st' name sym value
      | none =>
        match dictLookup st'.symbols name with
        | some sym => assignTypeCheck st' name sym value
        | none =>
          if isParam then declare_variable st' name "var" value false
          else (st', some (Err.semantic ("Undefined variable '" ++ name ++ "'")))

/-- One symbol-table operation, for stating invariants over arbitrary
operation sequences. -/
inductive TableOp where
  | doDeclare (name varType : String) (value : Value) (isStatic : Bool)
  | doAssign (name : String) (value : Value)
  | doEnter (scopeName : String)
  | doExit

/-- Apply one operation, keeping the table state the method leaves behind
whether it succeeds or raises. -/
def applyOp (st : SymbolTable) : TableOp → SymbolTable
  | TableOp.doDeclare n t v b => (declare_variable st n t v b).1
  | TableOp.doAssign n v => (assign_variable st n v).1
  | TableOp.doEnter sc => enter_scope st sc
  | TableOp.doExit => exit_scope st

/-- Run a sequence of symbol-table operations. -/
def runOps (st : SymbolTable) (ops : List TableOp) : SymbolTable :=
  ops.foldl applyOp st

/-- Mirror of `s.startswith(p)` for a string prefix. -/
def strStartsWith (s p : String) : Bool :=
  p.data.isPrefixOf s.data

/-- The mutable state of a `PythonCodeGenerator` instance (the indent level is
passed explicitly to each emitting function instead). -/
structure GenState where
  static_vars : List (String × (String × Value))
  global_vars : List (String × (String × Value))
  functions : List (String × (List String × Stmts))
  libraries : List (String × String)

/-- A generator state with everything empty, as after
`PythonCodeGenerator.__init__`. -/
def GenState.init : GenState :=
  { static_vars := [], global_vars := [], functions := [], libraries := [] }

/-- Python `repr` of a string value (single-quoted), used by `str(...)` on
containers in `format_value`'s fall-through case. -/
def pyReprStr (s : String) : String :=
  "'" ++ s ++ "'"

/-- Python `str(value)` for the container values of this AST. -/
def pyStrOfValue (value : Value) : String :=
  match value with
  | Value.vstr s => s
  | Value.vlist es => "[" ++ pyJoin ", " (es.map pyReprStr) ++ "]"
  | Value.vdict ps =>
    "\x7b" ++ pyJoin ", " (ps.map (fun p => pyReprStr p.1 ++ ": " ++ pyReprStr p.2)) ++ "\x7d"
  | Value.vnone => "None"

/-- Element formatting inside `format_value`'s array branch (and the value
side of its dict branch): quoted strings, numbers and identifiers pass
through, anything else is double-quoted. -/
def formatElement (element : String) : String :=
  if isQuoted element then element
  else if pyFloatOk element then element
  else if pyIsIdentifier element then element
  else "\"" ++ element ++ "\""

/-- Key formatting inside `format_value`'s dict branch. -/
def formatKey (key : String) : String :=
  if isQuoted key then key else "\"" ++ key ++ "\""

/-- Mirror of `PythonCodeGenerator.format_value`. -/
def format_value (value : Value) (varType : Option String) : String :=
  match value with
  | Value.vnone => "None"
  | _ =>
    if varType = some "bool" &&
       (match value with
        | Value.vstr v => pyLower v = "true" || pyLower v = "false"
        | _ => false) then
      match value with
      | Value.vstr v => pyCapitalize v
      | _ => pyStrOfValue value
    else
      match value with
      | Value.vstr v =>
        if pyContainsChar v '[' && pyContainsChar v ']' then v
        else if isQuoted v then v
        else if pyFloatOk v then v
        else if pyIsIdentifier v then v
        else "\"" ++ v ++ "\""
      | Value.vlist elems =>
        if varType = some "ary" then
          "[" ++ pyJoin ", " (elems.map formatElement) ++ "]"
        else pyStrOfValue value
      | Value.vdict pairs =>
        if varType = some "dic" then
          "\x7b" ++ pyJoin ", " (pairs.map (fun p => formatKey p.1 ++ ": " ++ formatElement p.2)) ++ "\x7d"
        else pyStrOfValue value
      | Value.vnone => "None"

mutual
/-- Mirror of `PythonCodeGenerator.contains_goto` on one statement: a goto or
label, or an `if`/`while` whose body contains one.  Note the source does not
recurse into nested `fun` definitions. -/
def containsGotoStmt : Stmt → Bool
  | Stmt.goto _ => true
  | Stmt.label _ => true
  | Stmt.ifS _ body => contains_goto body
  | Stmt.whileS _ body => contains_goto body
  | _ => false
/-- Mirror of `PythonCodeGenerator.contains_goto`. -/
def contains_goto : Stmts → Bool
  | Stmts.nil => false
  | Stmts.cons s rest => containsGotoStmt s || contains_goto rest
end

/-- Record one string item of a statement tuple if it names a known global
variable, preserving first-occurrence order (the source collects a Python
`set`, whose iteration order is not defined; the claims below only meet the
empty collection). -/
def noteGlobal (gv : List (String × (String × Value))) (acc : List String)
    (s : String) : List String :=
  if dictMem gv s && !acc.contains s then acc ++ [s] else acc

/-- Traverse a `Value` the way `find_global_vars_used` traverses a tuple item:
strings are checked, lists are entered, dicts and `None` are ignored. -/
def noteGlobalValue (gv : List (String × (String × Value)))
    (acc : List String) : Value → List String
  | Value.vstr s => noteGlobal gv acc s
  | Value.vlist es => es.foldl (noteGlobal gv) acc
  | Value.vdict _ => acc
  | Value.vnone => acc

mutual
/-- Mirror of `PythonCodeGenerator.find_global_vars_used` on one statement
tuple: every string item is checked, every nested list is entered. -/
def fgvStmt (gv : List (String × (String × Value))) (acc : List String) :
    Stmt → List String
  | Stmt.declare t n v _ =>
    noteGlobalValue gv (noteGlobal gv (noteGlobal gv (noteGlobal gv acc "declare") t) n) v
  | Stmt.globalDecl t n v =>
    noteGlobalValue gv (noteGlobal gv (noteGlobal gv (noteGlobal gv acc "global") t) n) v
  | Stmt.assign n v =>
    noteGlobalValue gv (noteGlobal gv (noteGlobal gv acc "assign") n) v
  | Stmt.print args =>
    args.foldl (noteGlobal gv) (noteGlobal gv acc "print")
  | Stmt.ifS c body =>
    fgvStmts gv (noteGlobal gv (noteGlobal gv acc "if") c) body
  | Stmt.whileS c body =>
    fgvStmts gv (noteGlobal gv (noteGlobal gv acc "while") c) body
  | Stmt.funDef n params body =>
    fgvStmts gv (params.foldl (noteGlobal gv) (noteGlobal gv (noteGlobal gv acc "fun") n)) body
  | Stmt.call n args =>
    args.foldl (noteGlobal gv) (noteGlobal gv (noteGlobal gv acc "call") n)
  | Stmt.ret v =>
    (match v with
     | some s => noteGlobal gv (noteGlobal gv acc "return") s
     | none => noteGlobal gv acc "return")
  | Stmt.label n => noteGlobal gv (noteGlobal gv acc "label") n
  | Stmt.goto n => noteGlobal gv (noteGlobal gv acc "goto") n
  | Stmt.inc n => noteGlobal gv (noteGlobal gv acc "inc") n
  | Stmt.dec n => noteGlobal gv (noteGlobal gv acc "dec") n
  | Stmt.includeLib n => noteGlobal gv (noteGlobal gv acc "include") n
  | Stmt.importLib n => noteGlobal gv (noteGlobal gv acc "import") n
  | Stmt.libCall l f args =>
    args.foldl (noteGlobal gv) (noteGlobal gv (noteGlobal gv (noteGlobal gv acc "lib_call") l) f)
  | Stmt.libAccess l m =>
    noteGlobal gv (noteGlobal gv (noteGlobal gv acc "lib_access") l) m
  | Stmt.exprStmt e => noteGlobal gv (noteGlobal gv acc "expr") e
/-- Mirror of `find_global_vars_used` on a statement sequence. -/
def fgvStmts (gv : List (String × (String × Value))) (acc : List String) :
    Stmts → List String
  | Stmts.nil => acc
  | Stmts.cons s rest => fgvStmts gv (fgvStmt gv acc s) rest
end

/-- `find_global_vars_used` of a body, starting from nothing. -/
def find_global_vars_used (gv : List (String × (String × Value)))
    (body : Stmts) : List String :=
  fgvStmts gv [] body

/-- The raw-expression test of `compile_statements` for declare/assign
values: an unquoted, non-numeric, non-boolean string passes through
unformatted. -/
def isRawExprStr (v : String) : Bool :=
  !startsWithQuote v &&
  !pyIsDigit (pyRemoveChar (pyRemoveChar v '.') '-') &&
  !(pyLower v = "true" || pyLower v = "false")

mutual
/-- The per-statement body of the loop in
`PythonCodeGenerator.compile_statements` (goto-free structured emission).
Label and goto statements are explicitly skipped here. -/
def compileOne (st : GenState) (ind : Nat) :
    Stmt → Except Err (GenState × String)
  | Stmt.includeLib _ => Except.ok (st, "")
  | Stmt.importLib _ => Except.ok (st, "")
  | Stmt.declare varType name value isStatic =>
    if isStatic then Except.ok (st, "")
    else
      (match value with
       | Value.vstr v =>
         if isRawExprStr v then
           Except.ok (st, get_indent ind ++ name ++ " = " ++ v ++ "\n")
         else
           Except.ok (st, get_indent ind ++ name ++ " = " ++ format_value value (some varType) ++ "\n")
       | _ =>
         Except.ok (st, get_indent ind ++ name ++ " = " ++ format_value value (some varType) ++ "\n"))
  | Stmt.assign name value =>
    (match value with
     | Value.vstr v =>
       if isRawExprStr v then
         Except.ok (st, get_indent ind ++ name ++ " = " ++ v ++ "\n")
       else
         Except.ok (st, get_indent ind ++ name ++ " = " ++ format_value value none ++ "\n")
     | _ =>
       Except.ok (st, get_indent ind ++ name ++ " = " ++ format_value value none ++ "\n"))
  | Stmt.print argList =>
    let args := argList.foldl
      (fun acc arg =>
        if arg = "," then acc
        else if !startsWithQuote arg &&
                !pyIsDigit (pyRemoveChar (pyRemoveChar arg '.') '-') &&
                !(arg = "True" || arg = "False") then acc ++ [arg]
        else acc ++ [format_value (Value.vstr arg) none]) []
    Except.ok (st, get_indent ind ++ "print(" ++ pyJoin ", " args ++ ")\n")
  | Stmt.inc name => Except.ok (st, get_indent ind ++ name ++ " += 1\n")
  | Stmt.dec name => Except.ok (st, get_indent ind ++ name ++ " -= 1\n")
  | Stmt.whileS cond body =>
    (match compile_statements st (ind + 1) body with
     | Except.error e => Except.error e
     | Except.ok (st1, bodyCode) =>
       let head := get_indent ind ++ "while " ++ cond ++ ":\n"
       if pyStrip bodyCode = "" then
         Except.ok (st1, head ++ get_indent (ind + 1) ++ "pass\n")
       else Except.ok (st1, head ++ bodyCode))
  | Stmt.ifS cond body =>
    (match compile_statements st (ind + 1) body with
     | Except.error e => Except.error e
     | Except.ok (st1, bodyCode) =>
       let head := get_indent ind ++ "if " ++ cond ++ ":\n"
       if pyStrip bodyCode = "" then
         Except.ok (st1, head ++ get_indent (ind + 1) ++ "pass\n")
       else Except.ok (st1, head ++ bodyCode))
  | Stmt.funDef name params body =>
    let st1 := { st with functions := dictInsert st.functions name (params, body) }
    let head := get_indent ind ++ "def " ++ name ++ "(" ++ pyJoin ", " params ++ "):\n"
    let globalsUsed := find_global_vars_used st1.global_vars body
    let globalLine :=
      if globalsUsed.isEmpty then ""
      else get_indent (ind + 1) ++ "global " ++ pyJoin ", " globalsUsed ++ "\n"
    (match compile_statements st1 (ind + 1) body with
     | Except.error e => Except.error e
     | Except.ok (st2, bodyCode) =>
       if pyStrip bodyCode = "" then
         Except.ok (st2, head ++ globalLine ++ get_indent (ind + 1) ++ "pass\n" ++ "\n")
       else Except.ok (st2, head ++ globalLine ++ bodyCode ++ "\n"))
  | Stmt.call name args =>
    (match dictLookup st.functions name with
     | none => Except.error (Err.semantic ("Undefined function '" ++ name ++ "'"))
     | some (params, _) =>
       if params.length ≠ args.length then
         Except.error (Err.semantic ("Function '" ++ name ++ "' expects " ++
           Nat.repr params.length ++ " arguments, got " ++ Nat.repr args.length))
       else Except.ok (st, get_indent ind ++ name ++ "(" ++ pyJoin ", " args ++ ")\n"))
  | Stmt.ret value =>
    (match value with
     | some v => Except.ok (st, get_indent ind ++ "return " ++ v ++ "\n")
     | none => Except.ok (st, get_indent ind ++ "return\n"))
  | Stmt.label _ => Except.ok (st, "")
  | Stmt.goto _ => Except.ok (st, "")
  | Stmt.globalDecl _ _ _ => Except.error (Err.synErr "Unknown statement type: global")
  | Stmt.libCall _ _ _ => Except.error (Err.synErr "Unknown statement type: lib_call")
  | Stmt.libAccess _ _ => Except.error (Err.synErr "Unknown statement type: lib_access")
  | Stmt.exprStmt _ => Except.error (Err.synErr "Unknown statement type: expr")
/-- Mirror of `PythonCodeGenerator.compile_statements`. -/
def compile_statements (st : GenState) (ind : Nat) :
    Stmts → Except Err (GenState × String)
  | Stmts.nil => Except.ok (st, "")
  | Stmts.cons s rest =>
    (match compileOne st ind s with
     | Except.error e => Except.error e
     | Except.ok (st1, code) =>
       match compile_statements st1 ind rest with
       | Except.error e => Except.error e
       | Except.ok (st2, codeRest) => Except.ok (st2, code ++ codeRest))
end

/-- The lib-access filter in `compile_single_statement`'s print branch: keep
an argument that is a dotted access to a loaded library. -/
def isLibAccessArg (st : GenState) (arg : String) : Bool :=
  pyContainsChar arg '.' && !startsWithQuote arg &&
  (match splitAtChar '.' arg.data with
   | some (before, _) => dictMem st.libraries (pyLower (String.mk before))
   | none => false)

/-- Process the print arguments of `compile_single_statement`: commas are
skipped, loaded-library accesses pass through, and every other argument
reaches `self.is_expression`, which is not defined anywhere in the sources
and therefore raises `AttributeError`. -/
def singlePrintArgs (st : GenState) : List String → Except Err (List String)
  | [] => Except.ok []
  | arg :: rest =>
    if arg = "," then singlePrintArgs st rest
    else if isLibAccessArg st arg then
      match singlePrintArgs st rest with
      | Except.error e => Except.error e
      | Except.ok args => Except.ok (arg :: args)
    else Except.error (Err.attr "is_expression")

/-- Mirror of `PythonCodeGenerator.compile_single_statement` (used by the
goto-enabled mode).  The declare, assign and print branches call
`self.is_expression`, a method that does not exist anywhere in the sources:
reaching them raises `AttributeError`, modelled as `Err.attr`. -/
def compile_single_statement (st : GenState) (ind : Nat) :
    Stmt → Except Err (GenState × String)
  | Stmt.includeLib _ => Except.ok (st, "")
  | Stmt.importLib _ => Except.ok (st, "")
  | Stmt.libCall lib fn args =>
    let libVar := pyLower lib
    if !dictMem st.libraries libVar then
      Except.error (Err.semantic ("Library '" ++ lib ++ "' not loaded"))
    else
      Except.ok (st, get_indent ind ++ libVar ++ "." ++ fn ++ "(" ++ pyJoin ", " args ++ ")\n")
  | Stmt.libAccess lib member =>
    let libVar := pyLower lib
    if !dictMem st.libraries libVar then
      Except.error (Err.semantic ("Library '" ++ lib ++ "' not loaded"))
    else
      Except.ok (st, get_indent ind ++ libVar ++ "." ++ member ++ "\n")
  | Stmt.declare _ _ _ isStatic =>
    if isStatic then Except.ok (st, "")
    else Except.error (Err.attr "is_expression")
  | Stmt.assign _ _ => Except.error (Err.attr "is_expression")
  | Stmt.print argList =>
    (match singlePrintArgs st argList with
     | Except.error e => Except.error e
     | Except.ok args =>
       Except.ok (st, get_indent ind ++ "print(" ++ pyJoin ", " args ++ ")\n"))
  | Stmt.inc name => Except.ok (st, get_indent ind ++ name ++ " += 1\n")
  | Stmt.dec name => Except.ok (st, get_indent ind ++ name ++ " -= 1\n")
  | Stmt.ifS cond body =>
    (match compile_statements st (ind + 1) body with
     | Except.error e => Except.error e
     | Except.ok (st1, bodyCode) =>
       let head := get_indent ind ++ "if " ++ cond ++ ":\n"
       if pyStrip bodyCode = "" then
         Except.ok (st1, head ++ get_indent (ind + 1) ++ "pass\n")
       else Except.ok (st1, head ++ bodyCode))
  | Stmt.whileS cond body =>
    (match compile_statements st (ind + 1) body with
     | Except.error e => Except.error e
     | Except.ok (st1, bodyCode) =>
       let head := get_indent ind ++ "while " ++ cond ++ ":\n"
       if pyStrip bodyCode = "" then
         Except.ok (st1, head ++ get_indent (ind + 1) ++ "pass\n")
       else Except.ok (st1, head ++ bodyCode))
  | Stmt.call name args =>
    (match dictLookup st.functions name with
     | none => Except.error (Err.semantic ("Undefined function '" ++ name ++ "'"))
     | some (params, _) =>
       if params.length ≠ args.length then
         Except.error (Err.semantic ("Function '" ++ name ++ "' expects " ++
           Nat.repr params.length ++ " arguments, got " ++ Nat.repr args.length))
       else Except.ok (st, get_indent ind ++ name ++ "(" ++ pyJoin ", " args ++ ")\n"))
  | Stmt.ret value =>
    (match value with
     | some v => Except.ok (st, get_indent ind ++ "return " ++ v ++ "\n")
     | none => Except.ok (st, get_indent ind ++ "return\n"))
  | Stmt.funDef name params body =>
    let st1 := { st with functions := dictInsert st.functions name (params, body) }
    if contains_goto body then
      Except.error (Err.semantic ("Function '" ++ name ++ "' contains goto statements - goto is not supported inside functions"))
    else
      let head := get_indent ind ++ "def " ++ name ++ "(" ++ pyJoin ", " params ++ "):\n"
      let globalsUsed := find_global_vars_used st1.global_vars body
      let globalLine :=
        if globalsUsed.isEmpty then ""
        else get_indent (ind + 1) ++ "global " ++ pyJoin ", " globalsUsed ++ "\n"
      (match compile_statements st1 (ind + 1) body with
       | Except.error e => Except.error e
       | Except.ok (st2, bodyCode) =>
         if pyStrip bodyCode = "" then
           Except.ok (st2, head ++ globalLine ++ get_indent (ind + 1) ++ "pass\n" ++ "\n")
         else Except.ok (st2, head ++ globalLine ++ bodyCode ++ "\n"))
  | Stmt.label _ => Except.ok (st, "")
  | Stmt.goto _ => Except.ok (st, "")
  | Stmt.globalDecl _ _ _ => Except.ok (st, "")
  | Stmt.exprStmt _ => Except.ok (st, "")

/-- The function-definitions pass at the top of
`generate_goto_implementation`: compile every `fun` statement first. -/
def genFuns (st : GenState) : List Stmt → Except Err (GenState × String)
  | [] => Except.ok (st, "")
  | s :: rest =>
    match s with
    | Stmt.funDef _ _ _ =>
      (match compile_single_statement st 0 s with
       | Except.error e => Except.error e
       | Except.ok (st1, code) =>
         match genFuns st1 rest with
         | Except.error e => Except.error e
         | Except.ok (st2, codeRest) => Except.ok (st2, code ++ codeRest))
    | _ => genFuns st rest

/-- The flattening pass of `generate_goto_implementation`: labels map to the
index of the next flattened statement, function definitions are skipped, and
every other top-level statement is appended. -/
def flattenStmts (acc : List Stmt) (lmap : List (String × Nat)) :
    List Stmt → List Stmt × List (String × Nat)
  | [] => (acc, lmap)
  | s :: rest =>
    match s with
    | Stmt.label n => flattenStmts acc (dictInsert lmap n acc.length) rest
    | Stmt.funDef _ _ _ => flattenStmts acc lmap rest
    | _ => flattenStmts (acc ++ [s]) lmap rest

/-- Re-indent one statement's generated code inside the dispatch loop: every
non-blank line is stripped and re-emitted at indent level 3, exactly as the
source does. -/
def reindentLines (lines : List String) : String :=
  match lines with
  | [] => ""
  | line :: rest =>
    (if pyStrip line = "" then "" else get_indent 3 ++ pyStrip line ++ "\n") ++
    reindentLines rest

/-- The dispatch-emission loop of `generate_goto_implementation`: one
`if pc == i:` block per flattened statement. -/
def genDispatch (st : GenState) (lmap : List (String × Nat)) (idx : Nat) :
    List Stmt → Except Err (GenState × String)
  | [] => Except.ok (st, "")
  | s :: rest =>
    let head := get_indent 2 ++ "if pc == " ++ Nat.repr idx ++ ":\n"
    let blockRes : Except Err (GenState × String) :=
      match s with
      | Stmt.goto labelName =>
        (match dictLookup lmap labelName with
         | some j =>
           Except.ok (st, get_indent 3 ++ "pc = " ++ Nat.repr j ++ "\n" ++
             get_indent 3 ++ "continue\n")
         | none =>
           Except.ok (st, get_indent 3 ++ "raise RuntimeError(f'Undefined label: " ++
             labelName ++ "')\n"))
      | _ =>
        (match compile_single_statement st 3 s with
         | Except.error e => Except.error e
         | Except.ok (st1, code) =>
           Except.ok (st1, reindentLines (pySplitNl (pyStrip code))))
    match blockRes with
    | Except.error e => Except.error e
    | Except.ok (st1, block) =>
      match genDispatch st1 lmap (idx + 1) rest with
      | Except.error e => Except.error e
      | Except.ok (st2, codeRest) => Except.ok (st2, head ++ block ++ codeRest)

/-- Mirror of `PythonCodeGenerator.generate_goto_implementation`: function
definitions first, then the `main_program` dispatch loop whose counter `pc`
starts at zero and is guarded by the number of flattened non-function
top-level statements. -/
def generate_goto_implementation (st : GenState) (lmast : Stmts) :
    Except Err (GenState × String) :=
  match genFuns st lmast.toList with
  | Except.error e => Except.error e
  | Except.ok (st1, funCode) =>
    let flat := flattenStmts [] [] lmast.toList
    let header := "# Main program with goto support\n" ++ "def main_program():\n"
    let loopHead := get_indent 1 ++ "pc = 0\n" ++
      get_indent 1 ++ "while pc < " ++ Nat.repr flat.1.length ++ ":\n"
    match genDispatch st1 flat.2 0 flat.1 with
    | Except.error e => Except.error e
    | Except.ok (st2, dispatch) =>
      let tail := get_indent 2 ++ "pc += 1\n" ++
        "\n# Execute main program\n" ++ "if __name__ == '__main__':\n" ++
        "    main_program()\n"
      Except.ok (st2, funCode ++ header ++ loopHead ++ dispatch ++ tail)

mutual
/-- Mirror of the recursive collector inside
`PythonCodeGenerator.collect_labels_and_gotos`: gather labels (duplicates are
a semantic error) and goto references with their scopes, recursing into
`if`/`while`/`fun` bodies.  All errors of this phase are
`LumenSemanticError`s, so the error type is the message string. -/
def collectStmt (scope : String) (acc : List (String × String) × List (String × String)) :
    Stmt → Except String (List (String × String) × List (String × String))
  | Stmt.label n =>
    if dictMem acc.1 n then Except.error ("Duplicate label '" ++ n ++ "'")
    else Except.ok (dictInsert acc.1 n scope, acc.2)
  | Stmt.goto n => Except.ok (acc.1, acc.2 ++ [(n, scope)])
  | Stmt.ifS _ body => collectStmts ("if_" ++ Nat.repr acc.1.length) acc body
  | Stmt.whileS _ body => collectStmts ("while_" ++ Nat.repr acc.1.length) acc body
  | Stmt.funDef n _ body => collectStmts ("function_" ++ n) acc body
  | _ => Except.ok acc
/-- The collector over a statement sequence. -/
def collectStmts (scope : String) (acc : List (String × String) × List (String × String)) :
    Stmts → Except String (List (String × String) × List (String × String))
  | Stmts.nil => Except.ok acc
  | Stmts.cons s rest =>
    (match collectStmt scope acc s with
     | Except.error e => Except.error e
     | Except.ok acc' => collectStmts scope acc' rest)
end

/-- The validation loop of `collect_labels_and_gotos`: every goto target must
exist, and a goto from inside a function may only reach a label of the same
function scope. -/
def validateGotos (labels : List (String × String)) :
    List (String × String) → Except String Unit
  | [] => Except.ok ()
  | (l, sc) :: rest =>
    match dictLookup labels l with
    | none => Except.error ("Undefined label '" ++ l ++ "' in goto statement")
    | some labelScope =>
      if labelScope ≠ sc && strStartsWith sc "function_" then
        Except.error ("Cannot goto label '" ++ l ++ "' from inside function - labels inside functions can only be reached from within the same function")
      else validateGotos labels rest

/-- Mirror of `PythonCodeGenerator.collect_labels_and_gotos`. -/
def collect_labels_and_gotos (lmast : Stmts) :
    Except String (List (String × String) × List (String × String)) :=
  match collectStmts "global" ([], []) lmast with
  | Except.error e => Except.error e
  | Except.ok acc =>
    match validateGotos acc.1 acc.2 with
    | Except.error e => Except.error e
    | Except.ok _ => Except.ok acc

/-- The library-directive pass of `compile_to_python`: register libraries and
emit their loading lines. -/
def collectLibs : List Stmt → List (String × String) × String
  | [] => ([], "")
  | s :: rest =>
    let r := collectLibs rest
    match s with
    | Stmt.includeLib n =>
      (dictInsert r.1 (pyLower n) n,
       pyLower n ++ " = load_library('" ++ n ++ "', system=True, install_dir=install_dir)\n" ++ r.2)
    | Stmt.importLib n =>
      (dictInsert r.1 (pyLower n) n,
       pyLower n ++ " = load_library('" ++ n ++ "', system=False, install_dir=install_dir)\n" ++ r.2)
    | _ => r

/-- Forward accumulation of the static-declaration pass of
`compile_to_python`: statements are visited in source order, so entries keep
first-insertion position and a duplicated name keeps the last declaration's
type and value, as Python dict assignment does. -/
def collectStaticsAux (acc : List (String × (String × Value))) :
    List Stmt → List (String × (String × Value))
  | [] => acc
  | Stmt.declare t n v true :: rest => collectStaticsAux (dictInsert acc n (t, v)) rest
  | _ :: rest => collectStaticsAux acc rest

/-- The first pass of `compile_to_python` collecting static declarations. -/
def collectStatics (lmast : List Stmt) : List (String × (String × Value)) :=
  collectStaticsAux [] lmast

/-- Forward accumulation of the global-declaration pass of
`compile_to_python` (same dict semantics as `collectStaticsAux`). -/
def collectGlobalsAux (acc : List (String × (String × Value))) :
    List Stmt → List (String × (String × Value))
  | [] => acc
  | Stmt.globalDecl t n v :: rest => collectGlobalsAux (dictInsert acc n (t, v)) rest
  | _ :: rest => collectGlobalsAux acc rest

/-- The first pass of `compile_to_python` collecting global declarations. -/
def collectGlobals (lmast : List Stmt) : List (String × (String × Value)) :=
  collectGlobalsAux [] lmast

/-- Emission of the static-constant block of `compile_to_python`. -/
def emitStatics : List (String × (String × Value)) → String
  | [] => ""
  | (n, (t, v)) :: rest => n ++ " = " ++ format_value v (some t) ++ "\n" ++ emitStatics rest

/-- Emission of the global-variable block of `compile_to_python`. -/
def emitGlobals : List (String × (String × Value)) → String
  | [] => ""
  | (n, (t, v)) :: rest =>
    (match v with
     | Value.vnone => n ++ " = None\n"
     | _ => n ++ " = " ++ format_value v (some t) ++ "\n") ++ emitGlobals rest

/-- Mirror of `PythonCodeGenerator.compile_to_python` (and of the module-level
`compile_to_python`, which runs it on a fresh generator): validate labels and
gotos, emit the header and library/static/global sections, then either the
goto dispatch implementation or plain structured compilation.  The
installation directory interpolated into the header is environment input and
is passed as a parameter. -/
def compile_to_python (installDir : String) (lmast : Stmts) : Except Err String :=
  match collect_labels_and_gotos lmast with
  | Except.error m => Except.error (Err.semantic m)
  | Except.ok (labels, gotos) =>
    let header := "# Library imports\n" ++ "import sys\n" ++
      "from pathlib import Path\n\n" ++
      "# Add Lumen installation directory to path\n" ++
      "lumen_install_dir = Path(r'" ++ installDir ++ "')\n" ++
      "sys.path.insert(0, str(lumen_install_dir))\n\n" ++
      "from lmnlib import load_library\n\n" ++
      "# Load libraries\n" ++ "install_dir = lumen_install_dir\n\n"
    let libs := collectLibs lmast.toList
    let libSection := libs.2 ++ (if libs.1.isEmpty then "" else "\n")
    let statics := collectStatics lmast.toList
    let globals := collectGlobals lmast.toList
    let staticSection :=
      if statics.isEmpty then ""
      else "# Static constants (immutable)\n" ++ emitStatics statics ++ "\n"
    let globalSection :=
      if globals.isEmpty then ""
      else "# Global variables\n" ++ emitGlobals globals ++ "\n"
    let pre := header ++ libSection ++ staticSection ++ globalSection
    let gst : GenState :=
      { static_vars := statics, global_vars := globals, functions := [],
        libraries := libs.1 }
    if !labels.isEmpty || !gotos.isEmpty then
      match generate_goto_implementation gst lmast with
      | Except.error e => Except.error e
      | Except.ok (_, code) => Except.ok (pre ++ code)
    else
      match compile_statements gst 0 lmast with
      | Except.error e => Except.error e
      | Except.ok (_, code) => Except.ok (pre ++ code)

mutual
/-- Claim-side predicate: the statement contains `goto L` anywhere, including
nested inside `if`/`while`/`fun` bodies. -/
def stmtHasGoto (L : String) : Stmt → Bool
  | Stmt.goto n => n = L
  | Stmt.ifS _ body => stmtsHaveGoto L body
  | Stmt.whileS _ body => stmtsHaveGoto L body
  | Stmt.funDef _ _ body => stmtsHaveGoto L body
  | _ => false
/-- Claim-side predicate over statement sequences. -/
def stmtsHaveGoto (L : String) : Stmts → Bool
  | Stmts.nil => false
  | Stmts.cons s rest => stmtHasGoto L s || stmtsHaveGoto L rest
end

mutual
/-- Claim-side predicate: the statement declares label `L` anywhere. -/
def stmtHasLabel (L : String) : Stmt → Bool
  | Stmt.label n => n = L
  | Stmt.ifS _ body => stmtsHaveLabel L body
  | Stmt.whileS _ body => stmtsHaveLabel L body
  | Stmt.funDef _ _ body => stmtsHaveLabel L body
  | _ => false
/-- Claim-side predicate over statement sequences. -/
def stmtsHaveLabel (L : String) : Stmts → Bool
  | Stmts.nil => false
  | Stmts.cons s rest => stmtHasLabel L s || stmtsHaveLabel L rest
end

theorem str_empty_append (s : String) : "" ++ s = s := by
  cases s
  rfl

theorem dictLookup_dictInsert_self {α : Type} (m : List (String × α)) (k : String) (v : α) :
    dictLookup (dictInsert m k v) k = some v := by
  induction m with
  | nil => simp [dictInsert, dictLookup]
  | cons p rest ih =>
    by_cases h : p.1 = k
    · simp [dictInsert, dictLookup, h]
    · simp [dictInsert, dictLookup, h, ih]

theorem dictLookup_dictInsert_ne {α : Type} (m : List (String × α)) (k k' : String) (v : α)
    (h : k' ≠ k) : dictLookup (dictInsert m k v) k' = dictLookup m k' := by
  have hk : k ≠ k' := fun h' => h h'.symm
  induction m with
  | nil => simp [dictInsert, dictLookup, hk]
  | cons p rest ih =>
    by_cases hp : p.1 = k
    · subst hp
      simp [dictInsert, dictLookup, hk]
    · simp only [dictInsert, if_neg hp]
      by_cases hpk : p.1 = k'
      · simp [dictLookup, hpk]
      · simp [dictLookup, hpk, ih]

theorem dictMem_dictInsert {α : Type} (m : List (String × α)) (k k' : String) (v : α) :
    dictMem (dictInsert m k v) k' = true ↔ (k' = k ∨ dictMem m k' = true) := by
  by_cases h : k' = k
  · subst h
    simp [dictMem, dictLookup_dictInsert_self]
  · simp [dictMem, dictLookup_dictInsert_ne m k k' v h, h]

/-- Frame facts of a non-static `declare_variable`: all fields except
`symbols` are untouched, whether or not the declaration succeeds. -/
theorem declare_nonstatic_frame (st : SymbolTable) (n t : String) (v : Value) :
    ((declare_variable st n t v false).1.static_vars = st.static_vars ∧
     (declare_variable st n t v false).1.global_vars = st.global_vars ∧
     (declare_variable st n t v false).1.functions = st.functions ∧
     (declare_variable st n t v false).1.scope_stack = st.scope_stack) := by
  unfold declare_variable
  simp only [Bool.false_eq_true, if_false]
  split <;> simp

/-- Success characterisation of `declare_variable`: a static declaration
fails exactly on an existing static symbol of the same name; a non-static
declaration fails exactly on an existing symbol under its resolved key.  The
two tables are checked independently of one another. -/
theorem declare_ok_iff (st : SymbolTable) (n t : String) (v : Value) (b : Bool) :
    ((declare_variable st n t v b).2 = none ↔
      (if b then dictMem st.static_vars n = false
       else dictMem st.symbols (declFullName st n) = false)) := by
  unfold declare_variable
  cases b
  · simp only [Bool.false_eq_true, if_false]
    split <;> simp_all
  · simp only [if_true]
    split <;> simp_all

/-- The symbols table after a successful non-static declaration. -/
theorem declare_nonstatic_symbols (st : SymbolTable) (n t : String) (v : Value)
    (h : dictMem st.symbols (declFullName st n) = false) :
    (declare_variable st n t v false).1.symbols =
      dictInsert st.symbols (declFullName st n)
        (Symbol.mk n t v false (declScope st n)) := by
  unfold declare_variable
  simp [h]

end Lumen

namespace Lumen

/-- C1: the claim states that for every AST containing a label or a goto,
`generate_goto_implementation` emits the program-counter dispatch loop
(counter starting at zero, gotos assigning the label index and continuing,
other statements followed by a single increment, guard at the flattened
length).  The code cannot do this for the program `L: x = 1; goto L;`: the
assignment's branch of `compile_single_statement` calls
`self.is_expression`, a method that is never defined in the sources, so generation
aborts with an `AttributeError` and no loop is emitted at all.  This theorem
evaluates the embedded generator at that failing input. -/
theorem C1_goto_mode_crashes_on_assignment :
    generate_goto_implementation GenState.init
      (Stmts.ofList [Stmt.label "L", Stmt.assign "x" (Value.vstr "1"), Stmt.goto "L"]) =
      Except.error (Err.attr "is_expression") ∧
    compile_to_python "LUMEN_DIR"
      (Stmts.ofList [Stmt.label "L", Stmt.assign "x" (Value.vstr "1"), Stmt.goto "L"]) =
      Except.error (Err.attr "is_expression") :=
  ⟨rfl, rfl⟩

/-- C2 counterexample: the claim says a goto nested inside an `if` body is
treated as a jump instruction that sets the external program counter and
exits the construct, not as a normal or no-op statement.  In fact the
generated program for `L: if (x) { goto L; };` is character-for-character the
program generated when the nested goto is deleted outright: the nested goto
is compiled as a no-op and no program-counter assignment is emitted for
it. -/
theorem C2_nested_goto_cex :
    generate_goto_implementation GenState.init
      (Stmts.ofList [Stmt.label "L", Stmt.ifS "x" (Stmts.ofList [Stmt.goto "L"])]) =
    generate_goto_implementation GenState.init
      (Stmts.ofList [Stmt.label "L", Stmt.ifS "x" Stmts.nil]) :=
  rfl

/-- C2 (amended): in goto-enabled mode, a goto (or label) nested inside an
`if` or `while` body is compiled by `compile_statements` as a no-op: it
emits no code and changes no state, so the compiled construct is identical
to one without the goto, and no nested goto ever sets the external program
counter. -/
theorem C2_nested_goto_is_noop (st : GenState) (ind : Nat) (l cond : String)
    (body rest : Stmts) :
    (compile_statements st ind (Stmts.cons (Stmt.goto l) rest) =
       compile_statements st ind rest) ∧
    (compile_statements st ind (Stmts.cons (Stmt.label l) rest) =
       compile_statements st ind rest) ∧
    (compile_single_statement st ind (Stmt.ifS cond (Stmts.cons (Stmt.goto l) body)) =
       compile_single_statement st ind (Stmt.ifS cond body)) ∧
    (compile_single_statement st ind (Stmt.whileS cond (Stmts.cons (Stmt.goto l) body)) =
       compile_single_statement st ind (Stmt.whileS cond body)) := by
  have hgoto : ∀ (st' : GenState) (ind' : Nat) (rest' : Stmts),
      compile_statements st' ind' (Stmts.cons (Stmt.goto l) rest') =
        compile_statements st' ind' rest' := by
    intro st' ind' rest'
    show (match compileOne st' ind' (Stmt.goto l) with
          | Except.error e => Except.error e
          | Except.ok (st1, code) =>
            match compile_statements st1 ind' rest' with
            | Except.error e => Except.error e
            | Except.ok (st2, codeRest) => Except.ok (st2, code ++ codeRest)) =
        compile_statements st' ind' rest'
    cases h : compile_statements st' ind' rest' with
    | error e => simp [compileOne, h]
    | ok p => simp [compileOne, h, str_empty_append]
  have hlabel : compile_statements st ind (Stmts.cons (Stmt.label l) rest) =
      compile_statements st ind rest := by
    show (match compileOne st ind (Stmt.label l) with
          | Except.error e => Except.error e
          | Except.ok (st1, code) =>
            match compile_statements st1 ind rest with
            | Except.error e => Except.error e
            | Except.ok (st2, codeRest) => Except.ok (st2, code ++ codeRest)) =
        compile_statements st ind rest
    cases h : compile_statements st ind rest with
    | error e => simp [compileOne, h]
    | ok p => simp [compileOne, h, str_empty_append]
  refine ⟨hgoto st ind rest, hlabel, ?_, ?_⟩
  · show (match compile_statements st (ind + 1) (Stmts.cons (Stmt.goto l) body) with
          | Except.error e => Except.error e
          | Except.ok (st1, bodyCode) =>
            let head := get_indent ind ++ "if " ++ cond ++ ":\n"
            if pyStrip bodyCode = "" then
              Except.ok (st1, head ++ get_indent (ind + 1) ++ "pass\n")
            else Except.ok (st1, head ++ bodyCode)) =
        compile_single_statement st ind (Stmt.ifS cond body)
    rw [hgoto st (ind + 1) body]
    rfl
  · show (match compile_statements st (ind + 1) (Stmts.cons (Stmt.goto l) body) with
          | Except.error e => Except.error e
          | Except.ok (st1, bodyCode) =>
            let head := get_indent ind ++ "while " ++ cond ++ ":\n"
            if pyStrip bodyCode = "" then
              Except.ok (st1, head ++ get_indent (ind + 1) ++ "pass\n")
            else Except.ok (st1, head ++ bodyCode)) =
        compile_single_statement st ind (Stmt.whileS cond body)
    rw [hgoto st (ind + 1) body]
    rfl

/-- C3: the claim states that every program in which some function body
contains a label or goto anywhere fails with a goto-in-function semantic
error.  The program `fun outer() { fun inner() { lbl: goto lbl; }; };`
refutes this: the body of function `inner` contains both a label and a goto
(the generator's own `contains_goto` predicate accepts it), yet
`compile_to_python` succeeds and produces output, because `contains_goto`
does not recurse into nested `fun` statements and `compile_statements`'s
`fun` branch never performs the goto check at all. -/
theorem C3_nested_fun_label_goto_accepted :
    contains_goto (Stmts.ofList [Stmt.label "lbl", Stmt.goto "lbl"]) = true ∧
    (compile_to_python "LUMEN_DIR"
      (Stmts.ofList [Stmt.funDef "outer" []
        (Stmts.ofList [Stmt.funDef "inner" []
          (Stmts.ofList [Stmt.label "lbl", Stmt.goto "lbl"])])])).isOk = true :=
  ⟨rfl, rfl⟩

/-- C5: the expression resolver honours the precedence table (low to high:
logical-or, logical-and, equality/inequality, relational, additive,
multiplicative, unary not) with left associativity: `2 * 3 + 4` resolves to
`((2 * 3) + 4)` whose postfix run evaluates to 10, `2 + 3 * 4` resolves to
`(2 + (3 * 4))` evaluating to 14, and `!(a && b)` resolves to the negated
conjunction `(not (a and b))`. -/
theorem C5_expression_precedence :
    (precOf "||" < precOf "&&" ∧ precOf "&&" < precOf "==" ∧
     precOf "==" = precOf "!=" ∧ precOf "!=" < precOf "<" ∧
     precOf "<" = precOf ">" ∧ precOf ">" = precOf "<=" ∧
     precOf "<=" = precOf ">=" ∧ precOf ">=" < precOf "+" ∧
     precOf "+" = precOf "-" ∧ precOf "-" < precOf "*" ∧
     precOf "*" = precOf "/" ∧ precOf "/" = precOf "%" ∧
     precOf "%" < precOf "!") ∧
    parse_expression ["2", "*", "3", "+", "4"] = Except.ok (some "((2 * 3) + 4)") ∧
    infixToRpn ["2", "*", "3", "+", "4"] = Except.ok ["2", "3", "*", "4", "+"] ∧
    rpnEvalInt ["2", "3", "*", "4", "+"] [] = some 10 ∧
    parse_expression ["2", "+", "3", "*", "4"] = Except.ok (some "(2 + (3 * 4))") ∧
    infixToRpn ["2", "+", "3", "*", "4"] = Except.ok ["2", "3", "4", "*", "+"] ∧
    rpnEvalInt ["2", "3", "4", "*", "+"] [] = some 14 ∧
    parse_expression ["1", "-", "2", "-", "3"] = Except.ok (some "((1 - 2) - 3)") ∧
    parse_expression ["!", "(", "a", "&&", "b", ")"] = Except.ok (some "(not (a and b))") := by
  exact ⟨by decide, rfl, rfl, rfl, rfl, rfl, rfl, rfl, rfl⟩

/-- C9: `parse_value_expression` never propagates a failure of the
expression resolver: whenever `parse_expression` fails on the extracted
value tokens, the function instead returns those raw tokens joined by single
spaces, with the same end index. -/
theorem C9_resolver_failure_fallback (tokens : List String) (start : Nat)
    (hlt : start < tokens.length)
    (hne : scanEnd tokens start ≠ start) (err : String)
    (hfail : parse_expression
      ((tokens.drop start).take (scanEnd tokens start - start)) =
      Except.error err) :
    parse_value_expression tokens start =
      Except.ok
        (some (pyJoin " " ((tokens.drop start).take (scanEnd tokens start - start))),
         scanEnd tokens start) := by
  unfold parse_value_expression
  rw [if_neg (by omega)]
  simp only [if_neg hne, hfail]

/-- C9 witness: the tokens `( 2 ;` make the resolver fail with mismatched
parentheses, and `parse_value_expression` falls back to the joined raw
tokens. -/
theorem C9_resolver_failure_fallback_witness :
    parse_value_expression ["(", "2", ";"] 0 = Except.ok (some "( 2 ;", 3) :=
  C9_resolver_failure_fallback ["(", "2", ";"] 0 (by decide) (by decide)
    "Mismatched parentheses in expression" rfl

/-- C6 counterexample: the claim says `declare_variable` fails whenever a
static symbol of the name already exists, whatever the staticness of the new
declaration.  After `static int x 1;`, the static table holds `x`, yet a
non-static declaration of `x` succeeds, because the non-static branch checks
only the `symbols` table and never consults `static_vars`. -/
theorem C6_static_then_nonstatic_cex :
    dictMem ((declare_variable SymbolTable.init "x" "int" (Value.vstr "1") true).1).static_vars "x" = true ∧
    ((declare_variable ((declare_variable SymbolTable.init "x" "int" (Value.vstr "1") true).1)
        "x" "int" (Value.vstr "2") false).2 = none) :=
  ⟨rfl, rfl⟩

/-- C6 (amended): `declare_variable` fails exactly when the new declaration
is static and a static symbol of that name already exists, or when the new
declaration is non-static and a symbol is already registered under the
declaration's resolved key (the bare name when the name is a registered
global or the current scope is global, otherwise the scope-qualified name).
An existing static symbol never blocks a non-static declaration and an
existing non-static symbol never blocks a static one. -/
theorem C6_declare_characterisation (st : SymbolTable) (n t : String)
    (v : Value) (b : Bool) :
    ((declare_variable st n t v b).2 = none ↔
      (if b then dictMem st.static_vars n = false
       else dictMem st.symbols (declFullName st n) = false)) :=
  declare_ok_iff st n t v b

/-- The final type check of `assign_variable` never changes the table. -/
theorem assignTypeCheck_fst (st : SymbolTable) (n : String) (sym : Symbol)
    (v : Value) : (assignTypeCheck st n sym v).1 = st := by
  unfold assignTypeCheck
  split <;> rfl

/-- `assign_variable` never touches the static table, even on the parameter
path that declares a fresh non-static symbol. -/
theorem assign_static_frame (st : SymbolTable) (n : String) (v : Value) :
    (assign_variable st n v).1.static_vars = st.static_vars := by
  unfold assign_variable
  cases hsv : dictMem st.static_vars n with
  | true => simp [hsv]
  | false =>
    simp only [hsv, Bool.false_eq_true, if_false]
    have hpre : ∀ r : SymbolTable × Option Err,
        (if (isParameterOf st n && !dictMem st.symbols (assignFullName st n)) = true
         then declare_variable st n "var" v false else (st, none)) = r →
        r.1.static_vars = st.static_vars := by
      intro r hr
      split at hr
      · rw [← hr]
        exact (declare_nonstatic_frame st n "var" v).1
      · rw [← hr]
    split
    next st' e heq =>
      exact hpre _ heq
    next st' heq =>
      have hst' : st'.static_vars = st.static_vars := by
        have := hpre _ heq
        simpa using this
      cases hl : dictLookup st'.symbols (assignFullName st n) with
      | some sym =>
        show (assignTypeCheck st' n sym v).1.static_vars = st.static_vars
        rw [assignTypeCheck_fst]
        exact hst'
      | none =>
        show (match dictLookup st'.symbols n with
              | some sym => assignTypeCheck st' n sym v
              | none =>
                if isParameterOf st n = true then declare_variable st' n "var" v false
                else (st', some (Err.semantic ("Undefined variable '" ++ n ++ "'")))).1.static_vars =
            st.static_vars
        cases hl2 : dictLookup st'.symbols n with
        | some sym =>
          show (assignTypeCheck st' n sym v).1.static_vars = st.static_vars
          rw [assignTypeCheck_fst]
          exact hst'
        | none =>
          show (if isParameterOf st n = true then declare_variable st' n "var" v false
                else (st', some (Err.semantic ("Undefined variable '" ++ n ++ "'")))).1.static_vars =
              st.static_vars
          split
          · exact (declare_nonstatic_frame st' n "var" v).1.trans hst'
          · exact hst'

/-- Every single symbol-table operation preserves an existing static
binding exactly. -/
theorem applyOp_preserves_static (st : SymbolTable) (op : TableOp)
    (n : String) (sym : Symbol)
    (hs : dictLookup st.static_vars n = some sym) :
    dictLookup (applyOp st op).static_vars n = some sym := by
  cases op with
  | doDeclare n' t' v' b =>
    cases b with
    | false =>
      show dictLookup (declare_variable st n' t' v' false).1.static_vars n = some sym
      rw [(declare_nonstatic_frame st n' t' v').1]
      exact hs
    | true =>
      show dictLookup (declare_variable st n' t' v' true).1.static_vars n = some sym
      unfold declare_variable
      cases h' : dictMem st.static_vars n' with
      | true => simp [h', hs]
      | false =>
        have hne : n ≠ n' := by
          intro he
          subst he
          unfold dictMem at h'
          rw [hs] at h'
          exact Bool.noConfusion h'
        simp only [h', Bool.false_eq_true, if_false, if_true]
        rw [dictLookup_dictInsert_ne _ _ _ _ hne]
        exact hs
  | doAssign n' v' =>
    show dictLookup (assign_variable st n' v').1.static_vars n = some sym
    rw [assign_static_frame]
    exact hs
  | doEnter sc => exact hs
  | doExit =>
    show dictLookup (exit_scope st).static_vars n = some sym
    unfold exit_scope
    split
    · split
      · exact hs
      · exact hs
    · exact hs

/-- Static bindings survive arbitrary operation sequences unchanged. -/
theorem runOps_preserves_static :
    ∀ (ops : List TableOp) (st : SymbolTable) (n : String) (sym : Symbol),
      dictLookup st.static_vars n = some sym →
      dictLookup (runOps st ops).static_vars n = some sym
  | [], _, _, _, hs => hs
  | op :: rest, st, n, sym, hs =>
    runOps_preserves_static rest (applyOp st op) n sym
      (applyOp_preserves_static st op n sym hs)

end Lumen

namespace Lumen

/-- C7: a well-formed non-static declaration followed by an assignment to the
same name succeeds exactly when the assigned value is type-compatible with
the declared type (`var` accepts every value), and otherwise raises the
type-mismatch semantic error.  Well-formedness asks that no static symbol of
the name pre-exists (static names shadow everything in `assign_variable`) and
that a name registered as a global is only declared at global scope. -/
theorem C7_assign_type_checked (st : SymbolTable) (name ty : String)
    (v0 v : Value)
    (hstatic : dictMem st.static_vars name = false)
    (hglobal : dictMem st.global_vars name = true → current_scope st = "global")
    (hdecl : (declare_variable st name ty v0 false).2 = none) :
    ((assign_variable (declare_variable st name ty v0 false).1 name v).2 = none ↔
       check_type_compatibility ty v = true) ∧
    (check_type_compatibility ty v = false →
      (assign_variable (declare_variable st name ty v0 false).1 name v).2 =
        some (Err.semantic ("Type mismatch: Cannot assign " ++ infer_type v ++
          " to " ++ ty ++ " variable '" ++ name ++ "'"))) := by
  have hmem : dictMem st.symbols (declFullName st name) = false :=
    (declare_ok_iff st name ty v0 false).mp hdecl
  have hframe := declare_nonstatic_frame st name ty v0
  have hsyms : (declare_variable st name ty v0 false).1.symbols =
      dictInsert st.symbols (declFullName st name)
        (Symbol.mk name ty v0 false (declScope st name)) :=
    declare_nonstatic_symbols st name ty v0 hmem
  set st1 := (declare_variable st name ty v0 false).1 with hst1
  have hcs : current_scope st1 = current_scope st := by
    unfold current_scope
    rw [hframe.2.2.2]
  have hfa : assignFullName st1 name = declFullName st name := by
    unfold assignFullName declFullName
    rw [hcs]
    cases hg : dictMem st.global_vars name with
    | true => simp [hglobal hg]
    | false => simp
  have hlook : dictLookup st1.symbols (assignFullName st1 name) =
      some (Symbol.mk name ty v0 false (declScope st name)) := by
    rw [hfa, hsyms]
    exact dictLookup_dictInsert_self _ _ _
  have hmem1 : dictMem st1.symbols (assignFullName st1 name) = true := by
    unfold dictMem
    rw [hlook]
    rfl
  have hstatic1 : dictMem st1.static_vars name = false := by
    have h1 : st1.static_vars = st.static_vars := hframe.1
    rw [h1]
    exact hstatic
  have hassign : assign_variable st1 name v =
      assignTypeCheck st1 name (Symbol.mk name ty v0 false (declScope st name)) v := by
    unfold assign_variable
    simp only [hstatic1, Bool.false_eq_true, if_false, hmem1, Bool.not_true,
      Bool.and_false, hlook]
  rw [hassign]
  unfold assignTypeCheck
  constructor
  · cases hc : check_type_compatibility ty v with
    | true => simp [hc]
    | false => simp [hc]
  · intro hc
    simp [hc]

/-- C7 witness: after `int x 5;`, assigning `7` to `x` validates, while
assigning the string literal `"hello"` raises the type-mismatch error. -/
theorem C7_assign_type_checked_witness :
    (assign_variable (declare_variable SymbolTable.init "x" "int" (Value.vstr "5") false).1
       "x" (Value.vstr "7")).2 = none ∧
    (assign_variable (declare_variable SymbolTable.init "x" "int" (Value.vstr "5") false).1
       "x" (Value.vstr "\"hello\"")).2 =
      some (Err.semantic "Type mismatch: Cannot assign str to int variable 'x'") :=
  ⟨(C7_assign_type_checked SymbolTable.init "x" "int" (Value.vstr "5") (Value.vstr "7")
      rfl (by decide) rfl).1.mpr (by decide),
   (C7_assign_type_checked SymbolTable.init "x" "int" (Value.vstr "5") (Value.vstr "\"hello\"")
      rfl (by decide) rfl).2 (by decide)⟩

/-- C8: static symbols are write-once.  When the static table holds a symbol
for a name: re-declaring it static raises and leaves the table untouched,
every assignment to it raises the static-reassignment semantic error and
leaves the table untouched, and across every sequence of
declare/assign/enter/exit operations the static binding survives unchanged,
so a static symbol is created at most once and never reassigned. -/
theorem C8_static_write_once (st : SymbolTable) (n : String) (sym : Symbol)
    (hs : dictLookup st.static_vars n = some sym) :
    (∀ (t : String) (v : Value),
       (declare_variable st n t v true).2 ≠ none ∧
       (declare_variable st n t v true).1 = st) ∧
    (∀ va : Value,
       assign_variable st n va =
         (st, some (Err.semantic ("Cannot reassign static variable '" ++ n ++ "'")))) ∧
    (∀ ops : List TableOp,
       dictLookup (runOps st ops).static_vars n = some sym) := by
  have hmem : dictMem st.static_vars n = true := by
    unfold dictMem
    rw [hs]
    rfl
  refine ⟨fun t v => ⟨?_, ?_⟩, fun va => ?_, fun ops => ?_⟩
  · simp [declare_variable, hmem]
  · simp [declare_variable, hmem]
  · unfold assign_variable
    simp [hmem]
  · exact runOps_preserves_static ops st n sym hs

/-- C8 witness: after `static int x 1;`, a second static declaration fails,
an assignment fails with the static-reassignment error, and the binding
survives a scope-entering, declaring, scope-exiting operation sequence. -/
theorem C8_static_write_once_witness :
    (declare_variable (declare_variable SymbolTable.init "x" "int" (Value.vstr "1") true).1
       "x" "str" (Value.vstr "2") true).2 ≠ none ∧
    assign_variable (declare_variable SymbolTable.init "x" "int" (Value.vstr "1") true).1
       "x" (Value.vstr "3") =
      ((declare_variable SymbolTable.init "x" "int" (Value.vstr "1") true).1,
       some (Err.semantic "Cannot reassign static variable 'x'")) ∧
    dictLookup (runOps (declare_variable SymbolTable.init "x" "int" (Value.vstr "1") true).1
        [TableOp.doEnter "f", TableOp.doDeclare "y" "int" (Value.vstr "4") false,
         TableOp.doExit]).static_vars "x" =
      some (Symbol.mk "x" "int" (Value.vstr "1") true "static") :=
  ⟨((C8_static_write_once (declare_variable SymbolTable.init "x" "int" (Value.vstr "1") true).1
      "x" (Symbol.mk "x" "int" (Value.vstr "1") true "static") rfl).1 "str" (Value.vstr "2")).1,
   (C8_static_write_once (declare_variable SymbolTable.init "x" "int" (Value.vstr "1") true).1
      "x" (Symbol.mk "x" "int" (Value.vstr "1") true "static") rfl).2.1 (Value.vstr "3"),
   (C8_static_write_once (declare_variable SymbolTable.init "x" "int" (Value.vstr "1") true).1
      "x" (Symbol.mk "x" "int" (Value.vstr "1") true "static") rfl).2.2
     [TableOp.doEnter "f", TableOp.doDeclare "y" "int" (Value.vstr "4") false, TableOp.doExit]⟩

/-- C10: for a name already bound in the table that is not an as-yet
undeclared function parameter, `assign_variable` — whether it succeeds or
raises — returns the table unchanged: every stored symbol's value field and
the whole symbols mapping are untouched, because assignment only validates
and records no new value. -/
theorem C10_assign_only_validates (st : SymbolTable) (name : String) (v : Value)
    (hbound : (dictMem st.symbols (assignFullName st name) ||
               dictMem st.symbols name ||
               dictMem st.static_vars name) = true)
    (hnoparam : (isParameterOf st name &&
                 !dictMem st.symbols (assignFullName st name)) = false) :
    (assign_variable st name v).1 = st := by
  unfold assign_variable
  cases hsv : dictMem st.static_vars name with
  | true => simp [hsv]
  | false =>
    simp only [hsv, Bool.false_eq_true, if_false, hnoparam]
    cases hl : dictLookup st.symbols (assignFullName st name) with
    | some sym =>
      simp only [hl, assignTypeCheck_fst]
    | none =>
      have hmemfa : dictMem st.symbols (assignFullName st name) = false := by
        unfold dictMem
        rw [hl]
        rfl
      have hip : isParameterOf st name = false := by
        rw [hmemfa] at hnoparam
        simpa using hnoparam
      cases hl2 : dictLookup st.symbols name with
      | some sym => simp only [hl, hl2, assignTypeCheck_fst]
      | none => simp [hl, hl2, hip]

/-- C10 witness: with `x` declared at global scope, a succeeding and a
failing assignment both leave the table exactly as it was. -/
theorem C10_assign_only_validates_witness :
    (assign_variable (declare_variable SymbolTable.init "x" "int" (Value.vstr "5") false).1
       "x" (Value.vstr "\"oops\"")).1 =
      (declare_variable SymbolTable.init "x" "int" (Value.vstr "5") false).1 :=
  C10_assign_only_validates
    (declare_variable SymbolTable.init "x" "int" (Value.vstr "5") false).1
    "x" (Value.vstr "\"oops\"") (by decide) (by decide)

mutual
/-- The collector only appends to the goto list (single statement). -/
theorem collectStmt_gotos_mono : ∀ (s : Stmt) (scope : String)
    (acc acc' : List (String × String) × List (String × String)),
    collectStmt scope acc s = Except.ok acc' →
    ∀ g, g ∈ acc.2 → g ∈ acc'.2
  | Stmt.label n, scope, acc, acc', h, g, hg => by
    unfold collectStmt at h
    split at h
    · exact Except.noConfusion h
    · injection h with h1
      subst h1
      exact hg
  | Stmt.goto n, scope, acc, acc', h, g, hg => by
    unfold collectStmt at h
    injection h with h1
    subst h1
    exact List.mem_append.mpr (Or.inl hg)
  | Stmt.ifS c body, scope, acc, acc', h, g, hg =>
    collectStmts_gotos_mono body ("if_" ++ Nat.repr acc.1.length) acc acc' h g hg
  | Stmt.whileS c body, scope, acc, acc', h, g, hg =>
    collectStmts_gotos_mono body ("while_" ++ Nat.repr acc.1.length) acc acc' h g hg
  | Stmt.funDef n ps body, scope, acc, acc', h, g, hg =>
    collectStmts_gotos_mono body ("function_" ++ n) acc acc' h g hg
  | Stmt.declare _ _ _ _, scope, acc, acc', h, g, hg => by
    unfold collectStmt at h
    injection h with h1
    subst h1
    exact hg
  | Stmt.globalDecl _ _ _, scope, acc, acc', h, g, hg => by
    unfold collectStmt at h
    injection h with h1
    subst h1
    exact hg
  | Stmt.assign _ _, scope, acc, acc', h, g, hg => by
    unfold collectStmt at h
    injection h with h1
    subst h1
    exact hg
  | Stmt.print _, scope, acc, acc', h, g, hg => by
    unfold collectStmt at h
    injection h with h1
    subst h1
    exact hg
  | Stmt.call _ _, scope, acc, acc', h, g, hg => by
    unfold collectStmt at h
    injection h with h1
    subst h1
    exact hg
  | Stmt.ret _, scope, acc, acc', h, g, hg => by
    unfold collectStmt at h
    injection h with h1
    subst h1
    exact hg
  | Stmt.inc _, scope, acc, acc', h, g, hg => by
    unfold collectStmt at h
    injection h with h1
    subst h1
    exact hg
  | Stmt.dec _, scope, acc, acc', h, g, hg => by
    unfold collectStmt at h
    injection h with h1
    subst h1
    exact hg
  | Stmt.includeLib _, scope, acc, acc', h, g, hg => by
    unfold collectStmt at h
    injection h with h1
    subst h1
    exact hg
  | Stmt.importLib _, scope, acc, acc', h, g, hg => by
    unfold collectStmt at h
    injection h with h1
    subst h1
    exact hg
  | Stmt.libCall _ _ _, scope, acc, acc', h, g, hg => by
    unfold collectStmt at h
    injection h with h1
    subst h1
    exact hg
  | Stmt.libAccess _ _, scope, acc, acc', h, g, hg => by
    unfold collectStmt at h
    injection h with h1
    subst h1
    exact hg
  | Stmt.exprStmt _, scope, acc, acc', h, g, hg => by
    unfold collectStmt at h
    injection h with h1
    subst h1
    exact hg
/-- The collector only appends to the goto list (statement sequence). -/
theorem collectStmts_gotos_mono : ∀ (l : Stmts) (scope : String)
    (acc acc' : List (String × String) × List (String × String)),
    collectStmts scope acc l = Except.ok acc' →
    ∀ g, g ∈ acc.2 → g ∈ acc'.2
  | Stmts.nil, scope, acc, acc', h, g, hg => by
    unfold collectStmts at h
    injection h with h1
    subst h1
    exact hg
  | Stmts.cons s rest, scope, acc, acc', h, g, hg => by
    unfold collectStmts at h
    cases hc : collectStmt scope acc s with
    | error e =>
      rw [hc] at h
      exact Except.noConfusion h
    | ok acc1 =>
      rw [hc] at h
      exact collectStmts_gotos_mono rest scope acc1 acc' h g
        (collectStmt_gotos_mono s scope acc acc1 hc g hg)
end

mutual
/-- A goto occurring anywhere in a statement is recorded by a successful
collection pass. -/
theorem collectStmt_goto_rec : ∀ (s : Stmt) (L scope : String)
    (acc acc' : List (String × String) × List (String × String)),
    collectStmt scope acc s = Except.ok acc' → stmtHasGoto L s = true →
    ∃ sc, (L, sc) ∈ acc'.2
  | Stmt.goto n, L, scope, acc, acc', h, hg => by
    unfold collectStmt at h
    injection h with h1
    subst h1
    have hn : n = L := by simpa [stmtHasGoto] using hg
    subst hn
    exact ⟨scope, List.mem_append.mpr (Or.inr (by simp))⟩
  | Stmt.ifS c body, L, scope, acc, acc', h, hg =>
    collectStmts_goto_rec body L ("if_" ++ Nat.repr acc.1.length) acc acc' h hg
  | Stmt.whileS c body, L, scope, acc, acc', h, hg =>
    collectStmts_goto_rec body L ("while_" ++ Nat.repr acc.1.length) acc acc' h hg
  | Stmt.funDef n ps body, L, scope, acc, acc', h, hg =>
    collectStmts_goto_rec body L ("function_" ++ n) acc acc' h hg
  | Stmt.label _, L, scope, acc, acc', h, hg => by simp [stmtHasGoto] at hg
  | Stmt.declare _ _ _ _, L, scope, acc, acc', h, hg => by simp [stmtHasGoto] at hg
  | Stmt.globalDecl _ _ _, L, scope, acc, acc', h, hg => by simp [stmtHasGoto] at hg
  | Stmt.assign _ _, L, scope, acc, acc', h, hg => by simp [stmtHasGoto] at hg
  | Stmt.print _, L, scope, acc, acc', h, hg => by simp [stmtHasGoto] at hg
  | Stmt.call _ _, L, scope, acc, acc', h, hg => by simp [stmtHasGoto] at hg
  | Stmt.ret _, L, scope, acc, acc', h, hg => by simp [stmtHasGoto] at hg
  | Stmt.inc _, L, scope, acc, acc', h, hg => by simp [stmtHasGoto] at hg
  | Stmt.dec _, L, scope, acc, acc', h, hg => by simp [stmtHasGoto] at hg
  | Stmt.includeLib _, L, scope, acc, acc', h, hg => by simp [stmtHasGoto] at hg
  | Stmt.importLib _, L, scope, acc, acc', h, hg => by simp [stmtHasGoto] at hg
  | Stmt.libCall _ _ _, L, scope, acc, acc', h, hg => by simp [stmtHasGoto] at hg
  | Stmt.libAccess _ _, L, scope, acc, acc', h, hg => by simp [stmtHasGoto] at hg
  | Stmt.exprStmt _, L, scope, acc, acc', h, hg => by simp [stmtHasGoto] at hg
/-- A goto occurring anywhere in a statement sequence is recorded by a
successful collection pass. -/
theorem collectStmts_goto_rec : ∀ (l : Stmts) (L scope : String)
    (acc acc' : List (String × String) × List (String × String)),
    collectStmts scope acc l = Except.ok acc' → stmtsHaveGoto L l = true →
    ∃ sc, (L, sc) ∈ acc'.2
  | Stmts.nil, L, scope, acc, acc', h, hg => by simp [stmtsHaveGoto] at hg
  | Stmts.cons s rest, L, scope, acc, acc', h, hg => by
    unfold collectStmts at h
    cases hc : collectStmt scope acc s with
    | error e =>
      rw [hc] at h
      exact Except.noConfusion h
    | ok acc1 =>
      rw [hc] at h
      rcases (by simpa [stmtsHaveGoto] using hg :
          stmtHasGoto L s = true ∨ stmtsHaveGoto L rest = true) with h1 | h1
      · obtain ⟨sc, hsc⟩ := collectStmt_goto_rec s L scope acc acc1 hc h1
        exact ⟨sc, collectStmts_gotos_mono rest scope acc1 acc' h (L, sc) hsc⟩
      · exact collectStmts_goto_rec rest L scope acc1 acc' h h1
end

mutual
/-- A label in the collected label table was either already collected or is
declared somewhere in the statement. -/
theorem collectStmt_labels_sub : ∀ (s : Stmt) (L scope : String)
    (acc acc' : List (String × String) × List (String × String)),
    collectStmt scope acc s = Except.ok acc' → dictMem acc'.1 L = true →
    dictMem acc.1 L = true ∨ stmtHasLabel L s = true
  | Stmt.label n, L, scope, acc, acc', h, hm => by
    unfold collectStmt at h
    split at h
    · exact Except.noConfusion h
    · injection h with h1
      subst h1
      rcases (dictMem_dictInsert acc.1 n L scope).mp hm with h2 | h2
      · right
        simp [stmtHasLabel, h2]
      · left
        exact h2
  | Stmt.goto n, L, scope, acc, acc', h, hm => by
    unfold collectStmt at h
    injection h with h1
    subst h1
    exact Or.inl hm
  | Stmt.ifS c body, L, scope, acc, acc', h, hm => by
    rcases collectStmts_labels_sub body L ("if_" ++ Nat.repr acc.1.length) acc acc' h hm with h1 | h1
    · exact Or.inl h1
    · exact Or.inr h1
  | Stmt.whileS c body, L, scope, acc, acc', h, hm => by
    rcases collectStmts_labels_sub body L ("while_" ++ Nat.repr acc.1.length) acc acc' h hm with h1 | h1
    · exact Or.inl h1
    · exact Or.inr h1
  | Stmt.funDef n ps body, L, scope, acc, acc', h, hm => by
    rcases collectStmts_labels_sub body L ("function_" ++ n) acc acc' h hm with h1 | h1
    · exact Or.inl h1
    · exact Or.inr h1
  | Stmt.declare _ _ _ _, L, scope, acc, acc', h, hm => by
    unfold collectStmt at h
    injection h with h1
    subst h1
    exact Or.inl hm
  | Stmt.globalDecl _ _ _, L, scope, acc, acc', h, hm => by
    unfold collectStmt at h
    injection h with h1
    subst h1
    exact Or.inl hm
  | Stmt.assign _ _, L, scope, acc, acc', h, hm => by
    unfold collectStmt at h
    injection h with h1
    subst h1
    exact Or.inl hm
  | Stmt.print _, L, scope, acc, acc', h, hm => by
    unfold collectStmt at h
    injection h with h1
    subst h1
    exact Or.inl hm
  | Stmt.call _ _, L, scope, acc, acc', h, hm => by
    unfold collectStmt at h
    injection h with h1
    subst h1
    exact Or.inl hm
  | Stmt.ret _, L, scope, acc, acc', h, hm => by
    unfold collectStmt at h
    injection h with h1
    subst h1
    exact Or.inl hm
  | Stmt.inc _, L, scope, acc, acc', h, hm => by
    unfold collectStmt at h
    injection h with h1
    subst h1
    exact Or.inl hm
  | Stmt.dec _, L, scope, acc, acc', h, hm => by
    unfold collectStmt at h
    injection h with h1
    subst h1
    exact Or.inl hm
  | Stmt.includeLib _, L, scope, acc, acc', h, hm => by
    unfold collectStmt at h
    injection h with h1
    subst h1
    exact Or.inl hm
  | Stmt.importLib _, L, scope, acc, acc', h, hm => by
    unfold collectStmt at h
    injection h with h1
    subst h1
    exact Or.inl hm
  | Stmt.libCall _ _ _, L, scope, acc, acc', h, hm => by
    unfold collectStmt at h
    injection h with h1
    subst h1
    exact Or.inl hm
  | Stmt.libAccess _ _, L, scope, acc, acc', h, hm => by
    unfold collectStmt at h
    injection h with h1
    subst h1
    exact Or.inl hm
  | Stmt.exprStmt _, L, scope, acc, acc', h, hm => by
    unfold collectStmt at h
    injection h with h1
    subst h1
    exact Or.inl hm
/-- Sequence version of `collectStmt_labels_sub`. -/
theorem collectStmts_labels_sub : ∀ (l : Stmts) (L scope : String)
    (acc acc' : List (String × String) × List (String × String)),
    collectStmts scope acc l = Except.ok acc' → dictMem acc'.1 L = true →
    dictMem acc.1 L = true ∨ stmtsHaveLabel L l = true
  | Stmts.nil, L, scope, acc, acc', h, hm => by
    unfold collectStmts at h
    injection h with h1
    subst h1
    exact Or.inl hm
  | Stmts.cons s rest, L, scope, acc, acc', h, hm => by
    unfold collectStmts at h
    cases hc : collectStmt scope acc s with
    | error e =>
      rw [hc] at h
      exact Except.noConfusion h
    | ok acc1 =>
      rw [hc] at h
      rcases collectStmts_labels_sub rest L scope acc1 acc' h hm with h1 | h1
      · rcases collectStmt_labels_sub s L scope acc acc1 hc h1 with h2 | h2
        · exact Or.inl h2
        · exact Or.inr (by simp [stmtsHaveLabel, h2])
      · exact Or.inr (by simp [stmtsHaveLabel, h1])
end

/-- If some collected goto has no matching label, the validation loop
raises. -/
theorem validateGotos_error_of_missing :
    ∀ (gotos labels : List (String × String)) (L sc : String),
      (L, sc) ∈ gotos → dictMem labels L = false →
      ∃ e, validateGotos labels gotos = Except.error e
  | [], _, _, _, hmem, _ => absurd hmem (List.not_mem_nil _)
  | (l', sc') :: rest, labels, L, sc, hmem, hmiss => by
    unfold validateGotos
    cases hl : dictLookup labels l' with
    | none => exact ⟨_, rfl⟩
    | some lsc =>
      cases hcond : (decide (lsc ≠ sc') && strStartsWith sc' "function_") with
      | true =>
        refine ⟨"Cannot goto label '" ++ l' ++ "' from inside function - labels inside functions can only be reached from within the same function", ?_⟩
        show (if (decide (lsc ≠ sc') && strStartsWith sc' "function_") = true then
                Except.error ("Cannot goto label '" ++ l' ++ "' from inside function - labels inside functions can only be reached from within the same function")
              else validateGotos labels rest) =
            Except.error ("Cannot goto label '" ++ l' ++ "' from inside function - labels inside functions can only be reached from within the same function")
        rw [hcond]
        rfl
      | false =>
        simp only [hcond, Bool.false_eq_true, if_false]
        rcases List.mem_cons.mp hmem with heq | hmem'
        · injection heq with h1 h2
          subst h1
          have hmemL : dictMem labels L = true := by
            unfold dictMem
            rw [hl]
            rfl
          rw [hmiss] at hmemL
          exact Bool.noConfusion hmemL
        · exact validateGotos_error_of_missing rest labels L sc hmem' hmiss

mutual
/-- The only error the collection phase can raise is the duplicate-label
message (single statement). -/
theorem collectStmt_error_dup : ∀ (s : Stmt) (scope : String)
    (acc : List (String × String) × List (String × String)) (e : String),
    collectStmt scope acc s = Except.error e →
    ∃ n, e = "Duplicate label '" ++ n ++ "'"
  | Stmt.label n, scope, acc, e, h => by
    unfold collectStmt at h
    split at h
    · injection h with h1
      exact ⟨n, h1.symm⟩
    · exact Except.noConfusion h
  | Stmt.goto _, scope, acc, e, h => by
    unfold collectStmt at h
    exact Except.noConfusion h
  | Stmt.ifS c body, scope, acc, e, h =>
    collectStmts_error_dup body ("if_" ++ Nat.repr acc.1.length) acc e h
  | Stmt.whileS c body, scope, acc, e, h =>
    collectStmts_error_dup body ("while_" ++ Nat.repr acc.1.length) acc e h
  | Stmt.funDef n ps body, scope, acc, e, h =>
    collectStmts_error_dup body ("function_" ++ n) acc e h
  | Stmt.declare _ _ _ _, scope, acc, e, h => by
    unfold collectStmt at h
    exact Except.noConfusion h
  | Stmt.globalDecl _ _ _, scope, acc, e, h => by
    unfold collectStmt at h
    exact Except.noConfusion h
  | Stmt.assign _ _, scope, acc, e, h => by
    unfold collectStmt at h
    exact Except.noConfusion h
  | Stmt.print _, scope, acc, e, h => by
    unfold collectStmt at h
    exact Except.noConfusion h
  | Stmt.call _ _, scope, acc, e, h => by
    unfold collectStmt at h
    exact Except.noConfusion h
  | Stmt.ret _, scope, acc, e, h => by
    unfold collectStmt at h
    exact Except.noConfusion h
  | Stmt.inc _, scope, acc, e, h => by
    unfold collectStmt at h
    exact Except.noConfusion h
  | Stmt.dec _, scope, acc, e, h => by
    unfold collectStmt at h
    exact Except.noConfusion h
  | Stmt.includeLib _, scope, acc, e, h => by
    unfold collectStmt at h
    exact Except.noConfusion h
  | Stmt.importLib _, scope, acc, e, h => by
    unfold collectStmt at h
    exact Except.noConfusion h
  | Stmt.libCall _ _ _, scope, acc, e, h => by
    unfold collectStmt at h
    exact Except.noConfusion h
  | Stmt.libAccess _ _, scope, acc, e, h => by
    unfold collectStmt at h
    exact Except.noConfusion h
  | Stmt.exprStmt _, scope, acc, e, h => by
    unfold collectStmt at h
    exact Except.noConfusion h
/-- The only error the collection phase can raise is the duplicate-label
message (statement sequence). -/
theorem collectStmts_error_dup : ∀ (l : Stmts) (scope : String)
    (acc : List (String × String) × List (String × String)) (e : String),
    collectStmts scope acc l = Except.error e →
    ∃ n, e = "Duplicate label '" ++ n ++ "'"
  | Stmts.nil, scope, acc, e, h => by
    unfold collectStmts at h
    exact Except.noConfusion h
  | Stmts.cons s rest, scope, acc, e, h => by
    unfold collectStmts at h
    cases hc : collectStmt scope acc s with
    | error e' =>
      rw [hc] at h
      injection h with h1
      rw [← h1]
      exact collectStmt_error_dup s scope acc e' hc
    | ok acc1 =>
      rw [hc] at h
      exact collectStmts_error_dup rest scope acc1 e h
end

/-- Every error of the goto-validation loop is either the undefined-label
message for a collected goto whose target is missing from the label table,
or the cross-function message for a collected goto. -/
theorem validateGotos_error_shape : ∀ (gotos labels : List (String × String)) (e : String),
    validateGotos labels gotos = Except.error e →
    (∃ l, (∃ sc, (l, sc) ∈ gotos) ∧ dictMem labels l = false ∧
       e = "Undefined label '" ++ l ++ "' in goto statement") ∨
    (∃ l, (∃ sc, (l, sc) ∈ gotos) ∧
       e = "Cannot goto label '" ++ l ++ "' from inside function - labels inside functions can only be reached from within the same function")
  | [], _, _, h => by
    unfold validateGotos at h
    exact Except.noConfusion h
  | (l', sc') :: rest, labels, e, h => by
    revert h
    unfold validateGotos
    cases hl : dictLookup labels l' with
    | none =>
      intro h
      injection h with h1
      refine Or.inl ⟨l', ⟨sc', List.mem_cons_self _ _⟩, ?_, h1.symm⟩
      unfold dictMem
      rw [hl]
      rfl
    | some lsc =>
      cases hcond : (decide (lsc ≠ sc') && strStartsWith sc' "function_") with
      | true =>
        intro h
        have h2 : (if (decide (lsc ≠ sc') && strStartsWith sc' "function_") = true then
              Except.error ("Cannot goto label '" ++ l' ++ "' from inside function - labels inside functions can only be reached from within the same function")
            else validateGotos labels rest) = Except.error e := h
        rw [hcond] at h2
        injection h2 with h1
        exact Or.inr ⟨l', ⟨sc', List.mem_cons_self _ _⟩, h1.symm⟩
      | false =>
        intro h
        have h2 : (if (decide (lsc ≠ sc') && strStartsWith sc' "function_") = true then
              Except.error ("Cannot goto label '" ++ l' ++ "' from inside function - labels inside functions can only be reached from within the same function")
            else validateGotos labels rest) = Except.error e := h
        rw [hcond] at h2
        have h3 : validateGotos labels rest = Except.error e := h2
        rcases validateGotos_error_shape rest labels e h3 with
          ⟨l, ⟨sc, hm⟩, hmiss, he⟩ | ⟨l, ⟨sc, hm⟩, he⟩
        · exact Or.inl ⟨l, ⟨sc, List.mem_cons_of_mem _ hm⟩, hmiss, he⟩
        · exact Or.inr ⟨l, ⟨sc, List.mem_cons_of_mem _ hm⟩, he⟩

end Lumen

namespace Lumen

/-- C4 counterexample: the claim names the undefined-label error, but in the
program `L: L: goto M;` — which does contain a goto to the nowhere-declared
label `M` — compilation fails with the duplicate-label semantic error
instead, because the collection phase raises on the duplicate label before
the goto-target validation loop runs. -/
theorem C4_duplicate_label_preempts_cex :
    compile_to_python "LUMEN_DIR"
      (Stmts.ofList [Stmt.label "L", Stmt.label "L", Stmt.goto "M"]) =
      Except.error (Err.semantic "Duplicate label 'L'") ∧
    Err.semantic "Duplicate label 'L'" ≠
      Err.semantic "Undefined label 'M' in goto statement" :=
  ⟨rfl, by decide⟩

/-- C4 (amended): for every program containing `goto L` (anywhere, nesting
included) where no label `L` is declared anywhere, `compile_to_python`
raises a semantic error before emitting anything, and the raised message is
the undefined-label error for some goto whose target is missing from the
collected label table, unless an earlier semantic error of the same
validation pass preempts it — a duplicate label, or an earlier goto's
illegal cross-function reference; no other error shape can occur.  In the
unpreempted case the error is exactly the undefined-label error, pinned by
the second conjunct at the program `goto M;`.  The check runs only after
the whole unit is parsed, so a goto textually before its label compiles:
the third conjunct exhibits a forward reference that succeeds. -/
theorem C4_undefined_goto_fails :
    (∀ (d : String) (ast : Stmts) (L : String),
        stmtsHaveGoto L ast = true → stmtsHaveLabel L ast = false →
        ∃ m, compile_to_python d ast = Except.error (Err.semantic m) ∧
          ((∃ l, m = "Undefined label '" ++ l ++ "' in goto statement") ∨
           (∃ n, m = "Duplicate label '" ++ n ++ "'") ∨
           (∃ l, m = "Cannot goto label '" ++ l ++ "' from inside function - labels inside functions can only be reached from within the same function"))) ∧
    (compile_to_python "LUMEN_DIR" (Stmts.ofList [Stmt.goto "M"]) =
      Except.error (Err.semantic "Undefined label 'M' in goto statement")) ∧
    (compile_to_python "LUMEN_DIR"
      (Stmts.ofList [Stmt.goto "L", Stmt.label "L"])).isOk = true := by
  refine ⟨?_, rfl, rfl⟩
  intro d ast L hg hl
  cases hc : collectStmts "global" ([], []) ast with
  | error m =>
    have hcol : collect_labels_and_gotos ast = Except.error m := by
      unfold collect_labels_and_gotos
      rw [hc]
    obtain ⟨n, hdup⟩ := collectStmts_error_dup ast "global" ([], []) m hc
    refine ⟨m, ?_, Or.inr (Or.inl ⟨n, hdup⟩)⟩
    unfold compile_to_python
    rw [hcol]
  | ok acc =>
    obtain ⟨sc, hmem⟩ := collectStmts_goto_rec ast L "global" ([], []) acc hc hg
    have hnolabel : dictMem acc.1 L = false := by
      cases hmm : dictMem acc.1 L with
      | false => rfl
      | true =>
        rcases collectStmts_labels_sub ast L "global" ([], []) acc hc hmm with h1 | h1
        · simp [dictMem, dictLookup] at h1
        · rw [h1] at hl
          exact Bool.noConfusion hl
    obtain ⟨e, he⟩ := validateGotos_error_of_missing acc.2 acc.1 L sc hmem hnolabel
    have hcol : collect_labels_and_gotos ast = Except.error e := by
      unfold collect_labels_and_gotos
      rw [hc]
      show (match validateGotos acc.1 acc.2 with
            | Except.error e => Except.error e
            | Except.ok _ => Except.ok acc) = Except.error e
      rw [he]
    have hshape := validateGotos_error_shape acc.2 acc.1 e he
    refine ⟨e, ?_, ?_⟩
    · unfold compile_to_python
      rw [hcol]
    · rcases hshape with ⟨l, _, _, hel⟩ | ⟨l, _, hel⟩
      · exact Or.inl ⟨l, hel⟩
      · exact Or.inr (Or.inr ⟨l, hel⟩)

/-- C4 witness: the bare program `goto M;` declares no label `M` anywhere;
the universal part of the theorem applied there yields the semantic failure
together with its error-shape disjunction. -/
theorem C4_undefined_goto_fails_witness :
    stmtsHaveGoto "M" (Stmts.ofList [Stmt.goto "M"]) = true ∧
    stmtsHaveLabel "M" (Stmts.ofList [Stmt.goto "M"]) = false ∧
    (∃ m, compile_to_python "LUMEN_DIR" (Stmts.ofList [Stmt.goto "M"]) =
        Except.error (Err.semantic m) ∧
      ((∃ l, m = "Undefined label '" ++ l ++ "' in goto statement") ∨
       (∃ n, m = "Duplicate label '" ++ n ++ "'") ∨
       (∃ l, m = "Cannot goto label '" ++ l ++ "' from inside function - labels inside functions can only be reached from within the same function"))) :=
  ⟨rfl, rfl,
   C4_undefined_goto_fails.1 "LUMEN_DIR" (Stmts.ofList [Stmt.goto "M"]) "M" rfl rfl⟩

end Lumen

